import Mathlib

/-!
# Water dispenser controller (`src/src/main.cpp`)

A shallow embedding of the Arduino sketch that drives the pump relay, the heater relay and
the "gallon empty" indicator of a water dispenser from one level sensor.

* The global variables of the sketch are the fields of `State`.
* `unsigned long` is 32 bits wide on both supported boards (ESP8266, ESP32); clock values
  are natural numbers and the unsigned subtraction `a - b` of the source is `sub32 a b`.
* Every function of the sketch that touches the hardware or the serial port returns, next to
  the new state, the list of `Event`s it emitted, in program order.
* The environment reads of one `loop()` pass (the `millis()` at its start, the
  `digitalRead` of the sensor, the `millis()` inside `setPump`) are the fields of `Tick`.
-/

namespace Dispenser

/-! ## Constants -/

/-- Arduino `HIGH`. -/
def HIGH : Int := 1
/-- Arduino `LOW`. -/
def LOW : Int := 0

/-- `#define ON_STATE HIGH`. -/
def ON_STATE : Int := HIGH
/-- `#define OFF_STATE LOW`. -/
def OFF_STATE : Int := LOW

/-- `const bool SENSOR_ACTIVE_LOW = true;` -/
def SENSOR_ACTIVE_LOW : Bool := true
/-- `const unsigned long SCAN_INTERVAL_MS = 100;` -/
def SCAN_INTERVAL_MS : Nat := 100
/-- `const unsigned long LED_BLINK_INTERVAL_MS = 500;` -/
def LED_BLINK_INTERVAL_MS : Nat := 500
/-- `const unsigned long GALLON_EMPTY_DETECT_MS = 300000;` -/
def GALLON_EMPTY_DETECT_MS : Nat := 300000

/-- Number of values of an `unsigned long` on the target boards. -/
def U32 : Nat := 2 ^ 32

/-- Unsigned 32-bit subtraction `a - b` of the source: the difference modulo `2 ^ 32`. -/
def sub32 (a b : Nat) : Nat := (a % U32 + (U32 - b % U32)) % U32

/-- The value `millis()` returns at real time `t` (milliseconds since power-up): the
millisecond counter is an `unsigned long` and wraps. -/
def millis (t : Nat) : Nat := t % U32

/-! ## Pins and observable events -/

/-- The pins of the sketch, by role (their numbers depend on the board). -/
inductive Pin where
  | RELAY_HEATER_PIN
  | WATER_EMPTY_LED_PIN
  | BUILTIN_LED_PIN
  | SENSOR_WATER_LEVEL_PIN
  | RELAY_PUMP_PIN
  deriving DecidableEq, Repr

/-- What a function of the sketch does to the outside world. -/
inductive Event where
  /-- `digitalWrite(pin, level)`. -/
  | digitalWrite (pin : Pin) (level : Int)
  /-- `Serial.print(text)`: text without a line end. -/
  | print (text : String)
  /-- `Serial.println(text)`: text and the end of the log line. -/
  | println (text : String)
  deriving DecidableEq, Repr

/-! ## State -/

/-- The global variables of the sketch. -/
structure State where
  lastScanMs : Nat
  pumpOn : Bool
  pumpStartMs : Nat
  lastLedBlinkMs : Nat
  ledWaterEmptyState : Bool
  gallonEmpty : Bool
  lastWaterOkState : Bool
  lastHeaterState : Bool
  gallonEmptyDetectStartMs : Nat
  gallonEmptyDetectActive : Bool
  waterEmptyLedShouldBeActive : Bool
  deriving DecidableEq, Repr

/-- The initialisers of the global variables (lines 75-85). -/
def initState : State where
  lastScanMs := 0
  pumpOn := false
  pumpStartMs := 0
  lastLedBlinkMs := 0
  ledWaterEmptyState := false
  gallonEmpty := false
  lastWaterOkState := false
  lastHeaterState := false
  gallonEmptyDetectStartMs := 0
  gallonEmptyDetectActive := false
  waterEmptyLedShouldBeActive := false

/-- The environment reads of one `loop()` pass. -/
structure Tick where
  /-- Value of `millis()` at the start of the pass. -/
  now : Nat
  /-- Value `digitalRead(SENSOR_WATER_LEVEL_PIN)` returns if the pass scans. -/
  raw : Int
  /-- Value of `millis()` inside `setPump` if the pass switches the pump on. -/
  pumpMs : Nat
  deriving DecidableEq, Repr

/-! ## Actuator drivers -/

/-- `void setPump(bool on)`, the argument being `v`; `ms` is the value of `millis()` read
when the pump goes on. -/
def setPump (v : Bool) (ms : Nat) (s : State) : State × List Event :=
  if v && !s.pumpOn then
    ({ s with pumpOn := true, pumpStartMs := ms },
      [Event.digitalWrite Pin.RELAY_PUMP_PIN ON_STATE, Event.println "[PUMP] ON"])
  else if !v && s.pumpOn then
    ({ s with pumpOn := false },
      [Event.digitalWrite Pin.RELAY_PUMP_PIN OFF_STATE, Event.println "[PUMP] OFF"])
  else
    (s, [])

/-- `void setHeater(bool on)`, the argument being `v`. -/
def setHeater (v : Bool) (s : State) : State × List Event :=
  if v != s.lastHeaterState then
    ({ s with lastHeaterState := v },
      [Event.digitalWrite Pin.RELAY_HEATER_PIN (if v then ON_STATE else OFF_STATE),
       Event.print "[HEATER] ",
       Event.println (if v then "ON" else "OFF")])
  else
    (s, [])

/-- `void setWaterEmptyLed(bool on)`, the argument being `v`: the events of its two
writes. -/
def setWaterEmptyLed (v : Bool) : List Event :=
  [Event.digitalWrite Pin.WATER_EMPTY_LED_PIN (if v then ON_STATE else OFF_STATE),
   Event.digitalWrite Pin.BUILTIN_LED_PIN (if v then ON_STATE else OFF_STATE)]

/-- `void updateWaterEmptyLed(bool shouldBeActive, unsigned long now)`. -/
def updateWaterEmptyLed (shouldBeActive : Bool) (now : Nat) (s : State) :
    State × List Event :=
  if shouldBeActive then
    if sub32 now s.lastLedBlinkMs ≥ LED_BLINK_INTERVAL_MS then
      ({ s with lastLedBlinkMs := now, ledWaterEmptyState := !s.ledWaterEmptyState },
        setWaterEmptyLed (!s.ledWaterEmptyState))
    else
      (s, [])
  else
    if s.ledWaterEmptyState then
      ({ s with ledWaterEmptyState := false }, setWaterEmptyLed false)
    else
      (s, [])

/-! ## Level interpreter -/

/-- `bool isWaterLevelOk()` on the value `v` that `digitalRead` returned, for a polarity. -/
def isWaterLevelOkWith (activeLow : Bool) (v : Int) : Bool :=
  if activeLow then v == LOW else v == HIGH

/-- `bool isWaterLevelOk()` with the configured `SENSOR_ACTIVE_LOW`. -/
def isWaterLevelOk (v : Int) : Bool := isWaterLevelOkWith SENSOR_ACTIVE_LOW v

/-- The state effect of `setup()`: `lastHeaterState = false` and the first sensor reading
stored in `lastWaterOkState` (lines 155-156). Its pin configuration, its four `OFF_STATE`
writes and its banner on the serial port precede every `loop()` pass and are not part of
the event lists below. -/
def setup (raw : Int) (s : State) : State :=
  { s with lastHeaterState := false, lastWaterOkState := isWaterLevelOk raw }

/-- The state in which the first `loop()` pass starts, `raw` being the sensor value `setup()`
read. -/
def boot (raw : Int) : State := setup raw initState

/-! ## The scan sequence of `loop()` -/

/-- Sequencing of two effectful steps: run `f`, then `g` on its state; events in order. -/
def andThen (r : State × List Event) (g : State → State × List Event) :
    State × List Event :=
  ((g r.1).1, r.2 ++ (g r.1).2)

/-- Lines 190-194: log a change of the water level. -/
def logWaterChange (waterOk : Bool) (s : State) : State × List Event :=
  if waterOk != s.lastWaterOkState then
    ({ s with lastWaterOkState := waterOk },
      [Event.print "[WATER] Level: ", Event.println (if waterOk then "OK" else "LOW")])
  else
    (s, [])

/-- Lines 200-226: arm or reset the empty-gallon timer (and clear the alert on water ok). -/
def timerStateUpdate (waterOk : Bool) (now : Nat) (s : State) : State × List Event :=
  if s.pumpOn && !waterOk then
    if !s.gallonEmptyDetectActive then
      ({ s with gallonEmptyDetectActive := true, gallonEmptyDetectStartMs := now },
        [Event.println "[TIMER] Deteksi galon kosong dimulai"])
    else
      (s, [])
  else if waterOk then
    andThen
      (if s.gallonEmptyDetectActive then
        ({ s with gallonEmptyDetectActive := false },
          [Event.println
            "[TIMER] Deteksi galon kosong di-reset - air sudah cukup (sensor validasi)"])
      else
        (s, []))
      (fun s1 =>
        if s1.gallonEmpty then
          ({ s1 with gallonEmpty := false },
            [Event.println "[INFO] Galon kosong reset - air sudah cukup"])
        else
          (s1, []))
  else
    if s.gallonEmptyDetectActive then
      ({ s with gallonEmptyDetectActive := false }, [])
    else
      (s, [])

/-- Lines 230-236: the expiry test of the empty-gallon timer. -/
def timerExpiry (now : Nat) (pumpMs : Nat) (s : State) : State × List Event :=
  if s.gallonEmptyDetectActive
      && decide (sub32 now s.gallonEmptyDetectStartMs > GALLON_EMPTY_DETECT_MS) then
    andThen
      (andThen
        ({ s with gallonEmpty := true, gallonEmptyDetectActive := false },
          [Event.println "[ALERT] Galon kosong terdeteksi!"])
        (setPump false pumpMs))
      (setHeater false)
  else
    (s, [])

/-- Lines 200-236: the whole timer update of a scan. -/
def timerUpdate (waterOk : Bool) (now : Nat) (pumpMs : Nat) (s : State) :
    State × List Event :=
  andThen (timerStateUpdate waterOk now s) (timerExpiry now pumpMs)

/-- The three branches of the pump control logic (lines 250-265). -/
inductive Branch where
  /-- `if (gallonEmpty)`. -/
  | emptyAlert
  /-- `else if (waterOk)`. -/
  | tankFull
  /-- `else`. -/
  | fill
  deriving DecidableEq, Repr

/-- Which branch of lines 250-265 runs. -/
def policyBranch (gallonEmpty waterOk : Bool) : Branch :=
  if gallonEmpty then Branch.emptyAlert
  else if waterOk then Branch.tankFull
  else Branch.fill

/-- The body of a branch of lines 250-265. -/
def runBranch (pumpMs : Nat) (s : State) : Branch → State × List Event
  | Branch.emptyAlert =>
    andThen (andThen (setPump false pumpMs s) (setHeater false))
      (fun s2 => ({ s2 with waterEmptyLedShouldBeActive := true }, []))
  | Branch.tankFull =>
    andThen
      (andThen (setPump false pumpMs s)
        (fun s1 => ({ s1 with waterEmptyLedShouldBeActive := false }, [])))
      (setHeater true)
  | Branch.fill =>
    andThen (andThen (setPump true pumpMs s) (setHeater false))
      (fun s2 => ({ s2 with waterEmptyLedShouldBeActive := false }, []))

/-- Lines 250-265: the pump control logic. -/
def controlPolicy (waterOk : Bool) (pumpMs : Nat) (s : State) : State × List Event :=
  runBranch pumpMs s (policyBranch s.gallonEmpty waterOk)

/-- Lines 185-236: the first part of a scan, up to and including the timer update. -/
def scanTimer (k : Tick) (s : State) : State × List Event :=
  andThen
    (logWaterChange (isWaterLevelOk k.raw) { s with lastScanMs := k.now })
    (timerUpdate (isWaterLevelOk k.raw) k.now k.pumpMs)

/-- Lines 185-265: the body of the periodic scan, on the pass `k`. -/
def scan (k : Tick) (s : State) : State × List Event :=
  andThen (scanTimer k s) (controlPolicy (isWaterLevelOk k.raw) k.pumpMs)

/-- The test of line 184: is a scan due in this pass? -/
def scanDue (k : Tick) (s : State) : Bool :=
  decide (sub32 k.now s.lastScanMs ≥ SCAN_INTERVAL_MS)

/-- `void loop()`: one pass. -/
def loop (k : Tick) (s : State) : State × List Event :=
  andThen (if scanDue k s then scan k s else (s, []))
    (fun s1 => updateWaterEmptyLed s1.waterEmptyLedShouldBeActive k.now s1)

/-- Does the expiry test of lines 230-236 succeed in the scan `k` from `s`? The timer is
active after lines 200-226 exactly when the pump is on and the water low, and its start is
`now` if it was armed in this scan. -/
def scanExpires (k : Tick) (s : State) : Bool :=
  (s.pumpOn && !isWaterLevelOk k.raw) &&
    decide (sub32 k.now
      (if s.pumpOn && !isWaterLevelOk k.raw && !s.gallonEmptyDetectActive then k.now
        else s.gallonEmptyDetectStartMs) > GALLON_EMPTY_DETECT_MS)

/-! ## Runs -/

/-- Run `step` over the passes `ks` in order, from `s`: final state and all events. -/
def runWith (step : Tick → State → State × List Event) :
    State → List Tick → State × List Event
  | s, [] => (s, [])
  | s, k :: ks => andThen (step k s) (fun s1 => runWith step s1 ks)

/-- A sequence of `loop()` passes. -/
def run (s : State) (ks : List Tick) : State × List Event := runWith loop s ks

/-- A sequence of scans (passes in which the scan is due, without the blinker). -/
def runScans (s : State) (ks : List Tick) : State × List Event := runWith scan s ks

/-- The pass at real times `k.now`, `k.pumpMs`, as the sketch sees it through `millis()`. -/
def atClock (k : Tick) : Tick := { k with now := millis k.now, pumpMs := millis k.pumpMs }

/-- The water-ok readings of the scans that ran during the passes `ks` from `s`, in order. -/
def scanReadings : State → List Tick → List Bool
  | _, [] => []
  | s, k :: ks =>
    (if scanDue k s then [isWaterLevelOk k.raw] else []) ++ scanReadings (loop k s).1 ks

/-- The levels written to `pin` by `digitalWrite` among the events `evs`, in order. -/
def writesTo (pin : Pin) : List Event → List Int
  | [] => []
  | Event.digitalWrite p level :: evs =>
    if p = pin then level :: writesTo pin evs else writesTo pin evs
  | _ :: evs => writesTo pin evs

/-- The number of log lines (`Serial.println` calls) among the events `evs`. -/
def logLines : List Event → Nat
  | [] => 0
  | Event.println _ :: evs => logLines evs + 1
  | _ :: evs => logLines evs

/-- The number of `digitalWrite` calls among the events `evs`. -/
def hardwareWrites : List Event → Nat
  | [] => 0
  | Event.digitalWrite _ _ :: evs => hardwareWrites evs + 1
  | _ :: evs => hardwareWrites evs

/-- The scans of the scenario "scan interval 100 ms, water low throughout": `m` scans at
real times `t`, `t + 100`, `t + 200`, ..., each reading `HIGH` (water low). -/
def scansFrom (t : Nat) : Nat → List Tick
  | 0 => []
  | m + 1 => Tick.mk t HIGH t :: scansFrom (t + SCAN_INTERVAL_MS) m

/-! ## Invariants of the empty-gallon timer -/

/-- The timer is counting since real time `T0`: pump on, no alert, timer active and started
at the clock value of `T0`. -/
def Armed (s : State) (T0 : Nat) : Prop :=
  s.pumpOn = true ∧ s.gallonEmpty = false ∧ s.gallonEmptyDetectActive = true ∧
    s.gallonEmptyDetectStartMs = millis T0

/-- The alert is latched: `gallonEmpty` set, timer stopped, pump and heater off. -/
def Alerted (s : State) : Prop :=
  s.gallonEmpty = true ∧ s.gallonEmptyDetectActive = false ∧ s.pumpOn = false ∧
    s.lastHeaterState = false

/-- No alert is latched, and the timer, if active, was started at the clock value of a real
time between `lo` and `hi`. -/
def Quiet (s : State) (lo hi : Nat) : Prop :=
  s.gallonEmpty = false ∧
    (s.gallonEmptyDetectActive = true →
      ∃ T, lo ≤ T ∧ T ≤ hi ∧ s.gallonEmptyDetectStartMs = millis T)

/-! ## Consecutive blinker calls and the invariant of reachable states -/

/-- Consecutive calls `updateWaterEmptyLed(shouldBeActive, now)` at the clock values `nows`,
with the same `shouldBeActive`: final state and all events. -/
def blinkRun (shouldBeActive : Bool) : State → List Nat → State × List Event
  | s, [] => (s, [])
  | s, now :: nows =>
    andThen (updateWaterEmptyLed shouldBeActive now s)
      (fun s1 => blinkRun shouldBeActive s1 nows)

/-- What holds in the boot state and after every `loop()` pass from it: the indicator intent
is `gallonEmpty`; under the alert pump, heater and timer are off; the timer is active only
with the pump on; pump and heater are not both on. -/
def BootInv (s : State) : Prop :=
  s.waterEmptyLedShouldBeActive = s.gallonEmpty ∧
  (s.gallonEmpty = true →
    s.pumpOn = false ∧ s.lastHeaterState = false ∧ s.gallonEmptyDetectActive = false) ∧
  (s.gallonEmptyDetectActive = true → s.pumpOn = true) ∧
  ¬ (s.pumpOn = true ∧ s.lastHeaterState = true)

/-! ## The loop with the scan interval as a parameter, and the LED toggles of a run -/

/-- The test of line 184 for a scan interval `interval` in place of `SCAN_INTERVAL_MS`. -/
def scanDueWith (interval : Nat) (k : Tick) (s : State) : Bool :=
  decide (sub32 k.now s.lastScanMs ≥ interval)

/-- `void loop()` for a scan interval `interval` in place of `SCAN_INTERVAL_MS`. -/
def loopWith (interval : Nat) (k : Tick) (s : State) : State × List Event :=
  andThen (if scanDueWith interval k s then scan k s else (s, []))
    (fun s1 => updateWaterEmptyLed s1.waterEmptyLedShouldBeActive k.now s1)

/-- The indicator intent is true when the blinker runs in each of the passes at the real
times of `ks`, from `s`. -/
def intentHeld (interval : Nat) : State → List Tick → Prop
  | _, [] => True
  | s, k :: ks =>
    (loopWith interval (atClock k) s).1.waterEmptyLedShouldBeActive = true ∧
      intentHeld interval (loopWith interval (atClock k) s).1 ks

/-- The real times of the passes of `ks`, from `s`, in which `ledWaterEmptyState` changes. -/
def ledToggleTimes (interval : Nat) : State → List Tick → List Nat
  | _, [] => []
  | s, k :: ks =>
    (if (loopWith interval (atClock k) s).1.ledWaterEmptyState != s.ledWaterEmptyState
      then [k.now] else [])
    ++ ledToggleTimes interval (loopWith interval (atClock k) s).1 ks

/-- The real times among `ts` at which consecutive calls `updateWaterEmptyLed(true, now)`
toggle the LED, `last` being `lastLedBlinkMs` before the first call. -/
def blinkToggles (last : Nat) : List Nat → List Nat
  | [] => []
  | t :: ts =>
    if sub32 (millis t) last ≥ LED_BLINK_INTERVAL_MS then t :: blinkToggles (millis t) ts
    else blinkToggles last ts

/-- Two states agree on every variable but the blinker's (`lastLedBlinkMs` and
`ledWaterEmptyState`), the only ones a scan neither reads nor writes. -/
def SameCore (a b : State) : Prop :=
  a.lastScanMs = b.lastScanMs ∧ a.pumpOn = b.pumpOn ∧ a.pumpStartMs = b.pumpStartMs ∧
  a.gallonEmpty = b.gallonEmpty ∧ a.lastWaterOkState = b.lastWaterOkState ∧
  a.lastHeaterState = b.lastHeaterState ∧
  a.gallonEmptyDetectStartMs = b.gallonEmptyDetectStartMs ∧
  a.gallonEmptyDetectActive = b.gallonEmptyDetectActive ∧
  a.waterEmptyLedShouldBeActive = b.waterEmptyLedShouldBeActive

/-! ## The control policy as the specification words it -/

/-- Target actuator states of the control policy. -/
structure Targets where
  pump : Bool
  heater : Bool
  indicatorShouldBlink : Bool
  deriving DecidableEq, Repr

/-- The specification's `decide(waterOk, emptyDetected)` (section 4.3), first match wins:
empty detected gives all off and the indicator blinking; else water ok gives heater on; else
pump on. -/
def specDecide (waterOk emptyDetected : Bool) : Targets :=
  if emptyDetected then { pump := false, heater := false, indicatorShouldBlink := true }
  else if waterOk then { pump := false, heater := true, indicatorShouldBlink := false }
  else { pump := true, heater := false, indicatorShouldBlink := false }

/-- The actuator targets stored in a state. -/
def targetsOf (s : State) : Targets :=
  { pump := s.pumpOn, heater := s.lastHeaterState,
    indicatorShouldBlink := s.waterEmptyLedShouldBeActive }

/-! ## Basic facts about the steps -/

theorem andThen_fst (r : State × List Event) (g : State → State × List Event) :
    (andThen r g).1 = (g r.1).1 := rfl

theorem andThen_snd (r : State × List Event) (g : State → State × List Event) :
    (andThen r g).2 = r.2 ++ (g r.1).2 := rfl

/-- The blinker touches only `lastLedBlinkMs` and `ledWaterEmptyState`. -/
theorem updateWaterEmptyLed_frame (b : Bool) (now : Nat) (s : State) :
    (updateWaterEmptyLed b now s).1 =
      { s with lastLedBlinkMs := (updateWaterEmptyLed b now s).1.lastLedBlinkMs,
               ledWaterEmptyState := (updateWaterEmptyLed b now s).1.ledWaterEmptyState } := by
  unfold updateWaterEmptyLed
  split_ifs <;> rfl

/-- State of a pass in which a scan is due: the scan, then the blinker. -/
theorem loop_fst_of_due (k : Tick) (s : State) (h : scanDue k s = true) :
    (loop k s).1 =
      (updateWaterEmptyLed (scan k s).1.waterEmptyLedShouldBeActive k.now (scan k s).1).1 := by
  simp [loop, andThen, h]

/-- State of a pass in which no scan is due: the blinker alone. -/
theorem loop_fst_of_not_due (k : Tick) (s : State) (h : scanDue k s = false) :
    (loop k s).1 = (updateWaterEmptyLed s.waterEmptyLedShouldBeActive k.now s).1 := by
  simp [loop, andThen, h]

/-! ## The state after each step, in closed form -/

theorem setPump_fst (v : Bool) (ms : Nat) (s : State) :
    (setPump v ms s).1 =
      { s with pumpOn := v,
               pumpStartMs := if v && !s.pumpOn then ms else s.pumpStartMs } := by
  rcases s with ⟨ls, po, ps, lb, led, ge, lw, lh, gs, ga, wi⟩
  cases v <;> cases po <;> simp [setPump]

theorem setHeater_fst (v : Bool) (s : State) :
    (setHeater v s).1 = { s with lastHeaterState := v } := by
  rcases s with ⟨ls, po, ps, lb, led, ge, lw, lh, gs, ga, wi⟩
  cases v <;> cases lh <;> simp [setHeater]

theorem logWaterChange_fst (w : Bool) (s : State) :
    (logWaterChange w s).1 = { s with lastWaterOkState := w } := by
  rcases s with ⟨ls, po, ps, lb, led, ge, lw, lh, gs, ga, wi⟩
  cases w <;> cases lw <;> simp [logWaterChange]

theorem timerStateUpdate_fst (w : Bool) (now : Nat) (s : State) :
    (timerStateUpdate w now s).1 =
      { s with
        gallonEmpty := s.gallonEmpty && !w,
        gallonEmptyDetectActive := s.pumpOn && !w,
        gallonEmptyDetectStartMs :=
          if s.pumpOn && !w && !s.gallonEmptyDetectActive then now
          else s.gallonEmptyDetectStartMs } := by
  rcases s with ⟨ls, po, ps, lb, led, ge, lw, lh, gs, ga, wi⟩
  cases w <;> cases po <;> cases ga <;> cases ge <;> simp [timerStateUpdate, andThen]

theorem timerExpiry_fst (now pumpMs : Nat) (s : State) :
    (timerExpiry now pumpMs s).1 =
      if s.gallonEmptyDetectActive
          && decide (sub32 now s.gallonEmptyDetectStartMs > GALLON_EMPTY_DETECT_MS) then
        { s with gallonEmpty := true, gallonEmptyDetectActive := false, pumpOn := false,
                 lastHeaterState := false }
      else s := by
  unfold timerExpiry
  split_ifs
  · simp [andThen_fst, setPump_fst, setHeater_fst]
  · rfl

theorem controlPolicy_fst (w : Bool) (pumpMs : Nat) (s : State) :
    (controlPolicy w pumpMs s).1 =
      { s with
        pumpOn := !s.gallonEmpty && !w,
        lastHeaterState := !s.gallonEmpty && w,
        waterEmptyLedShouldBeActive := s.gallonEmpty,
        pumpStartMs :=
          if !s.gallonEmpty && !w && !s.pumpOn then pumpMs else s.pumpStartMs } := by
  rcases s with ⟨ls, po, ps, lb, led, ge, lw, lh, gs, ga, wi⟩
  cases w <;> cases ge <;>
    simp [controlPolicy, policyBranch, runBranch, andThen_fst, setPump_fst, setHeater_fst]

/-- The state after lines 185-236 of a scan: the expiry test applied to the state that the
level log and lines 200-226 leave. -/
theorem scanTimer_fst (k : Tick) (s : State) :
    (scanTimer k s).1 =
      (timerExpiry k.now k.pumpMs
        { s with
          lastScanMs := k.now,
          lastWaterOkState := isWaterLevelOk k.raw,
          gallonEmpty := s.gallonEmpty && !isWaterLevelOk k.raw,
          gallonEmptyDetectActive := s.pumpOn && !isWaterLevelOk k.raw,
          gallonEmptyDetectStartMs :=
            if s.pumpOn && !isWaterLevelOk k.raw && !s.gallonEmptyDetectActive then k.now
            else s.gallonEmptyDetectStartMs }).1 := by
  simp [scanTimer, timerUpdate, andThen_fst, logWaterChange_fst, timerStateUpdate_fst]

/-- The state after a scan, variable by variable. -/
theorem scan_fst (k : Tick) (s : State) :
    (scan k s).1 =
      { lastScanMs := k.now
        pumpOn := !((s.gallonEmpty && !isWaterLevelOk k.raw) || scanExpires k s)
                    && !isWaterLevelOk k.raw
        pumpStartMs :=
          if !s.gallonEmpty && !isWaterLevelOk k.raw && !s.pumpOn then k.pumpMs
          else s.pumpStartMs
        lastLedBlinkMs := s.lastLedBlinkMs
        ledWaterEmptyState := s.ledWaterEmptyState
        gallonEmpty := (s.gallonEmpty && !isWaterLevelOk k.raw) || scanExpires k s
        lastWaterOkState := isWaterLevelOk k.raw
        lastHeaterState := isWaterLevelOk k.raw
        gallonEmptyDetectStartMs :=
          if s.pumpOn && !isWaterLevelOk k.raw && !s.gallonEmptyDetectActive then k.now
          else s.gallonEmptyDetectStartMs
        gallonEmptyDetectActive := (s.pumpOn && !isWaterLevelOk k.raw) && !scanExpires k s
        waterEmptyLedShouldBeActive :=
          (s.gallonEmpty && !isWaterLevelOk k.raw) || scanExpires k s } := by
  rcases s with ⟨ls, po, ps, lb, led, ge, lw, lh, gs, ga, wi⟩
  simp only [scan, andThen_fst, scanTimer_fst, timerExpiry_fst, controlPolicy_fst, scanExpires]
  cases hw : isWaterLevelOk k.raw <;> cases po <;> cases ge <;> simp <;>
    split_ifs <;> simp_all

/-- The state after the timer update of a scan, for the alert flag. -/
theorem scanTimer_gallonEmpty (k : Tick) (s : State) :
    (scanTimer k s).1.gallonEmpty
      = ((s.gallonEmpty && !isWaterLevelOk k.raw) || scanExpires k s) := by
  rcases s with ⟨ls, po, ps, lb, led, ge, lw, lh, gs, ga, wi⟩
  simp only [scanTimer_fst, timerExpiry_fst, scanExpires]
  split_ifs with h <;> simp_all

/-- A scan that reads water-ok cannot expire the timer. -/
theorem scanExpires_of_ok (k : Tick) (s : State) (h : isWaterLevelOk k.raw = true) :
    scanExpires k s = false := by
  simp [scanExpires, h]

/-! ## Water ok in a scan -/

/-- C1: a scan that reads water-ok ends, from every state and at every clock value, with
the pump off, the heater on, `gallonEmpty` false, the empty-gallon timer inactive and the
indicator intent false; the same holds at the end of the `loop()` pass that ran the scan. -/
theorem scan_water_ok (k : Tick) (s : State) (h : isWaterLevelOk k.raw = true) :
    ((scan k s).1.pumpOn = false ∧ (scan k s).1.lastHeaterState = true ∧
      (scan k s).1.gallonEmpty = false ∧ (scan k s).1.gallonEmptyDetectActive = false ∧
      (scan k s).1.waterEmptyLedShouldBeActive = false) ∧
    (scanDue k s = true →
      (loop k s).1.pumpOn = false ∧ (loop k s).1.lastHeaterState = true ∧
      (loop k s).1.gallonEmpty = false ∧ (loop k s).1.gallonEmptyDetectActive = false ∧
      (loop k s).1.waterEmptyLedShouldBeActive = false) := by
  have hs : (scan k s).1.pumpOn = false ∧ (scan k s).1.lastHeaterState = true ∧
      (scan k s).1.gallonEmpty = false ∧ (scan k s).1.gallonEmptyDetectActive = false ∧
      (scan k s).1.waterEmptyLedShouldBeActive = false := by
    simp [scan_fst, h, scanExpires_of_ok]
  refine ⟨hs, fun hd => ?_⟩
  rw [loop_fst_of_due k s hd, updateWaterEmptyLed_frame]
  exact hs

/-- Witness for C1: the first scan after boot, at clock value 100 with the sensor low. -/
theorem scan_water_ok_witness :
    isWaterLevelOk (Tick.mk 100 LOW 100).raw = true ∧
    (scan (Tick.mk 100 LOW 100) initState).1.lastHeaterState = true :=
  ⟨by decide, (scan_water_ok (Tick.mk 100 LOW 100) initState (by decide)).1.2.1⟩

/-! ## Safety of the actuators -/

/-- After a scan the heater is on exactly when the scan read water-ok. -/
theorem scan_heater_eq (k : Tick) (s : State) :
    (scan k s).1.lastHeaterState = isWaterLevelOk k.raw := by
  rw [scan_fst]

/-- After a scan the pump is on only if the scan read water-low. -/
theorem scan_pump_imp_low (k : Tick) (s : State) (h : (scan k s).1.pumpOn = true) :
    isWaterLevelOk k.raw = false := by
  cases hw : isWaterLevelOk k.raw
  · rfl
  · simp [scan_fst, hw] at h

/-- The state of a pass is that of its scan part but for the blinker's two variables. -/
theorem loop_frame (k : Tick) (s : State) :
    (loop k s).1.pumpOn = (if scanDue k s then scan k s else (s, [])).1.pumpOn ∧
    (loop k s).1.lastHeaterState
      = (if scanDue k s then scan k s else (s, [])).1.lastHeaterState ∧
    (loop k s).1.gallonEmpty = (if scanDue k s then scan k s else (s, [])).1.gallonEmpty ∧
    (loop k s).1.gallonEmptyDetectActive
      = (if scanDue k s then scan k s else (s, [])).1.gallonEmptyDetectActive ∧
    (loop k s).1.gallonEmptyDetectStartMs
      = (if scanDue k s then scan k s else (s, [])).1.gallonEmptyDetectStartMs ∧
    (loop k s).1.waterEmptyLedShouldBeActive
      = (if scanDue k s then scan k s else (s, [])).1.waterEmptyLedShouldBeActive ∧
    (loop k s).1.lastScanMs = (if scanDue k s then scan k s else (s, [])).1.lastScanMs ∧
    (loop k s).1.lastWaterOkState
      = (if scanDue k s then scan k s else (s, [])).1.lastWaterOkState ∧
    (loop k s).1.pumpStartMs = (if scanDue k s then scan k s else (s, [])).1.pumpStartMs := by
  unfold loop
  rw [andThen_fst, updateWaterEmptyLed_frame]
  simp

/-- A pass in which no scan is due leaves `gallonEmpty` as it is. -/
theorem loop_not_due_gallonEmpty (k : Tick) (s : State) (h : scanDue k s = false) :
    (loop k s).1.gallonEmpty = s.gallonEmpty := by
  rw [(loop_frame k s).2.2.1, h]
  rfl

/-- A pass in which a scan is due sets `gallonEmpty` as the scan does. -/
theorem loop_due_gallonEmpty (k : Tick) (s : State) (h : scanDue k s = true) :
    (loop k s).1.gallonEmpty = (scan k s).1.gallonEmpty := by
  rw [(loop_frame k s).2.2.1, h]
  rfl

/-- A pass keeps "pump and heater are not both on", whatever the state before. -/
theorem loop_not_both (k : Tick) (s : State)
    (h : ¬ (s.pumpOn = true ∧ s.lastHeaterState = true)) :
    ¬ ((loop k s).1.pumpOn = true ∧ (loop k s).1.lastHeaterState = true) := by
  obtain ⟨hp, hh, -⟩ := loop_frame k s
  rw [hp, hh]
  by_cases hd : scanDue k s = true
  · simp only [hd, if_true]
    rintro ⟨h1, h2⟩
    rw [scan_heater_eq, scan_pump_imp_low k s h1] at h2
    cases h2
  · simpa [hd] using h

/-- Heater on after the passes `ks` from `s`: either the most recent scan read water-ok, or
no scan ran and the heater was already on in `s`. -/
theorem run_heater_on (ks : List Tick) : ∀ s : State,
    (run s ks).1.lastHeaterState = true →
      (scanReadings s ks).getLast? = some true ∨
      (scanReadings s ks = [] ∧ s.lastHeaterState = true) := by
  induction ks with
  | nil => intro s h; exact Or.inr ⟨rfl, h⟩
  | cons k ks ih =>
    intro s h
    have h1 : (run (loop k s).1 ks).1.lastHeaterState = true := h
    rcases ih _ h1 with hl | ⟨hnil, hh⟩
    · left
      cases hr : scanReadings (loop k s).1 ks with
      | nil => rw [hr] at hl; cases hl
      | cons b bs =>
        rw [hr] at hl
        simp only [scanReadings, hr]
        rw [List.getLast?_append_of_ne_nil _ (by simp), hl]
    · have hf := (loop_frame k s).2.1
      rw [hf] at hh
      by_cases hd : scanDue k s = true
      · left
        simp only [hd, if_true] at hh
        rw [scan_heater_eq] at hh
        simp [scanReadings, hnil, hd, hh]
      · right
        simp only [hd] at hh
        simp [scanReadings, hnil, hd]
        simpa using hh

/-- Pump and heater are never both on after the passes `ks`, if they were not in `s`. -/
theorem run_not_both (ks : List Tick) : ∀ s : State,
    ¬ (s.pumpOn = true ∧ s.lastHeaterState = true) →
      ¬ ((run s ks).1.pumpOn = true ∧ (run s ks).1.lastHeaterState = true) := by
  induction ks with
  | nil => intro s h; exact h
  | cons k ks ih => intro s h; exact ih _ (loop_not_both k s h)

/-- C2: in every state reached from the boot state (whatever `setup()` read, so in particular
from the all-false state) by any sequence of `loop()` passes with arbitrary sensor readings
and clock values, pump and heater are not both on, and if the heater is on then a scan has
run and the most recent scan read water-ok. -/
theorem reachable_pump_heater_exclusive (raw0 : Int) (ks : List Tick) :
    ¬ ((run (boot raw0) ks).1.pumpOn = true ∧ (run (boot raw0) ks).1.lastHeaterState = true) ∧
    ((run (boot raw0) ks).1.lastHeaterState = true →
      (scanReadings (boot raw0) ks).getLast? = some true) ∧
    ¬ ((run initState ks).1.pumpOn = true ∧ (run initState ks).1.lastHeaterState = true) ∧
    ((run initState ks).1.lastHeaterState = true →
      (scanReadings initState ks).getLast? = some true) := by
  refine ⟨run_not_both ks _ (by simp [boot, setup, initState]), fun h => ?_,
    run_not_both ks _ (by simp [initState]), fun h => ?_⟩
  · rcases run_heater_on ks _ h with hl | ⟨-, hh⟩
    · exact hl
    · simp [boot, setup] at hh
  · rcases run_heater_on ks _ h with hl | ⟨-, hh⟩
    · exact hl
    · simp [initState] at hh

/-! ## The control policy -/

/-- C3: at the end of every scan the actuator targets (pump, heater, indicator intent) are
`specDecide waterOk emptyDetected`, where `waterOk` is the one sensor reading of the scan and
`emptyDetected` is `gallonEmpty` after the timer update of that scan; the policy is the last
step of the scan and leaves `gallonEmpty` as the timer update set it. -/
theorem scan_targets_eq_specDecide (k : Tick) (s : State) :
    targetsOf (scan k s).1
      = specDecide (isWaterLevelOk k.raw) (scanTimer k s).1.gallonEmpty ∧
    scan k s = andThen (scanTimer k s) (controlPolicy (isWaterLevelOk k.raw) k.pumpMs) ∧
    (scan k s).1.gallonEmpty = (scanTimer k s).1.gallonEmpty := by
  refine ⟨?_, rfl, ?_⟩
  · rw [scanTimer_gallonEmpty, scan_fst]
    cases hw : isWaterLevelOk k.raw
    · cases s.gallonEmpty <;> cases scanExpires k s <;> simp [targetsOf, specDecide]
    · rw [scanExpires_of_ok k s hw]
      cases s.gallonEmpty <;> simp [targetsOf, specDecide]
  · rw [scanTimer_gallonEmpty, scan_fst]

/-- C4: in every scan, from every state, water-ok and `gallonEmpty` do not hold together
when the control policy is evaluated (after the timer update); the branch taken is
determined by the two inputs, each of the three remaining input combinations selects its own
branch, and each of them occurs in some scan. -/
theorem scan_policy_branch (k : Tick) (s : State) :
    ¬ (isWaterLevelOk k.raw = true ∧ (scanTimer k s).1.gallonEmpty = true) ∧
    scan k s = andThen (scanTimer k s)
      (fun s1 => runBranch k.pumpMs s1 (policyBranch s1.gallonEmpty (isWaterLevelOk k.raw))) ∧
    (policyBranch (scanTimer k s).1.gallonEmpty (isWaterLevelOk k.raw) = Branch.emptyAlert ↔
      isWaterLevelOk k.raw = false ∧ (scanTimer k s).1.gallonEmpty = true) ∧
    (policyBranch (scanTimer k s).1.gallonEmpty (isWaterLevelOk k.raw) = Branch.tankFull ↔
      isWaterLevelOk k.raw = true ∧ (scanTimer k s).1.gallonEmpty = false) ∧
    (policyBranch (scanTimer k s).1.gallonEmpty (isWaterLevelOk k.raw) = Branch.fill ↔
      isWaterLevelOk k.raw = false ∧ (scanTimer k s).1.gallonEmpty = false) ∧
    (∃ k1 s1, isWaterLevelOk k1.raw = false ∧ (scanTimer k1 s1).1.gallonEmpty = true) ∧
    (∃ k2 s2, isWaterLevelOk k2.raw = true ∧ (scanTimer k2 s2).1.gallonEmpty = false) ∧
    (∃ k3 s3, isWaterLevelOk k3.raw = false ∧ (scanTimer k3 s3).1.gallonEmpty = false) := by
  have hno : ¬ (isWaterLevelOk k.raw = true ∧ (scanTimer k s).1.gallonEmpty = true) := by
    rintro ⟨hw, hg⟩
    rw [scanTimer_gallonEmpty, scanExpires_of_ok k s hw, hw] at hg
    simp at hg
  refine ⟨hno, rfl, ?_, ?_, ?_, ?_, ?_, ?_⟩
  · cases hw : isWaterLevelOk k.raw <;> cases hg : (scanTimer k s).1.gallonEmpty <;>
      simp [policyBranch]
    exact hno ⟨hw, hg⟩
  · cases hw : isWaterLevelOk k.raw <;> cases hg : (scanTimer k s).1.gallonEmpty <;>
      simp [policyBranch]
  · cases hw : isWaterLevelOk k.raw <;> cases hg : (scanTimer k s).1.gallonEmpty <;>
      simp [policyBranch]
  · refine ⟨Tick.mk 100 HIGH 100, { initState with gallonEmpty := true }, by decide, ?_⟩
    rw [scanTimer_gallonEmpty]
    simp [initState, isWaterLevelOk, isWaterLevelOkWith, SENSOR_ACTIVE_LOW, HIGH, LOW]
  · refine ⟨Tick.mk 100 LOW 100, initState, by decide, ?_⟩
    rw [scanTimer_gallonEmpty]
    simp [initState, isWaterLevelOk, isWaterLevelOkWith, SENSOR_ACTIVE_LOW, LOW, scanExpires]
  · refine ⟨Tick.mk 100 HIGH 100, initState, by decide, ?_⟩
    rw [scanTimer_gallonEmpty]
    simp [initState, isWaterLevelOk, isWaterLevelOkWith, SENSOR_ACTIVE_LOW, HIGH, LOW,
      scanExpires]

/-! ## Actuator drivers -/

/-- C5: `setPump` and `setHeater` called with the stored value change no state
(`pumpStartMs` included) and emit no hardware write and no log line; called with a value `v`
different from the stored one they store `v` and emit exactly one relay write carrying `v`
and one log line. Consequently, when the setter is called twice in a row with the same
value, the first call (the one that changes the stored state) produces exactly one hardware
write and one log line and the second call changes nothing and produces none. -/
theorem setter_idempotent (s : State) (v : Bool) (ms ms2 : Nat) :
    setPump v ms s =
      (if v = s.pumpOn then (s, [])
       else ({ s with pumpOn := v, pumpStartMs := if v then ms else s.pumpStartMs },
         [Event.digitalWrite Pin.RELAY_PUMP_PIN (if v then ON_STATE else OFF_STATE),
          Event.println (if v then "[PUMP] ON" else "[PUMP] OFF")])) ∧
    setHeater v s =
      (if v = s.lastHeaterState then (s, [])
       else ({ s with lastHeaterState := v },
         [Event.digitalWrite Pin.RELAY_HEATER_PIN (if v then ON_STATE else OFF_STATE),
          Event.print "[HEATER] ", Event.println (if v then "ON" else "OFF")])) ∧
    hardwareWrites (setPump v ms s).2 = (if v = s.pumpOn then 0 else 1) ∧
    logLines (setPump v ms s).2 = (if v = s.pumpOn then 0 else 1) ∧
    hardwareWrites (setHeater v s).2 = (if v = s.lastHeaterState then 0 else 1) ∧
    logLines (setHeater v s).2 = (if v = s.lastHeaterState then 0 else 1) ∧
    (setPump v ms s).1.pumpOn = v ∧
    (setHeater v s).1.lastHeaterState = v ∧
    setPump v ms2 (setPump v ms s).1 = ((setPump v ms s).1, []) ∧
    setHeater v (setHeater v s).1 = ((setHeater v s).1, []) ∧
    hardwareWrites (andThen (setPump v ms s) (setPump v ms2)).2
      = (if v = s.pumpOn then 0 else 1) ∧
    logLines (andThen (setPump v ms s) (setPump v ms2)).2
      = (if v = s.pumpOn then 0 else 1) ∧
    hardwareWrites (andThen (setHeater v s) (setHeater v)).2
      = (if v = s.lastHeaterState then 0 else 1) ∧
    logLines (andThen (setHeater v s) (setHeater v)).2
      = (if v = s.lastHeaterState then 0 else 1) ∧
    (v ≠ s.pumpOn →
      hardwareWrites (setPump v ms s).2 = 1 ∧ logLines (setPump v ms s).2 = 1 ∧
      hardwareWrites (setPump v ms2 (setPump v ms s).1).2 = 0 ∧
      logLines (setPump v ms2 (setPump v ms s).1).2 = 0) ∧
    (v ≠ s.lastHeaterState →
      hardwareWrites (setHeater v s).2 = 1 ∧ logLines (setHeater v s).2 = 1 ∧
      hardwareWrites (setHeater v (setHeater v s).1).2 = 0 ∧
      logLines (setHeater v (setHeater v s).1).2 = 0) := by
  rcases s with ⟨ls, po, ps, lb, led, ge, lw, lh, gs, ga, wi⟩
  refine ⟨?_, ?_, ?_, ?_, ?_, ?_, ?_, ?_, ?_, ?_, ?_, ?_, ?_, ?_, ?_, ?_⟩
  · cases v <;> cases po <;> simp [setPump]
  · cases v <;> cases lh <;> simp [setHeater]
  · cases v <;> cases po <;> simp [setPump, hardwareWrites]
  · cases v <;> cases po <;> simp [setPump, logLines]
  · cases v <;> cases lh <;> simp [setHeater, hardwareWrites]
  · cases v <;> cases lh <;> simp [setHeater, logLines]
  · cases v <;> cases po <;> simp [setPump]
  · cases v <;> cases lh <;> simp [setHeater]
  · cases v <;> cases po <;> simp [setPump]
  · cases v <;> cases lh <;> simp [setHeater]
  · cases v <;> cases po <;> simp [setPump, andThen, hardwareWrites]
  · cases v <;> cases po <;> simp [setPump, andThen, logLines]
  · cases v <;> cases lh <;> simp [setHeater, andThen, hardwareWrites]
  · cases v <;> cases lh <;> simp [setHeater, andThen, logLines]
  · cases v <;> cases po <;> simp [setPump, hardwareWrites, logLines]
  · cases v <;> cases lh <;> simp [setHeater, hardwareWrites, logLines]

/-! ## Clock arithmetic -/

/-- Unsigned subtraction of two clock values gives the real elapsed time when that is below
`2 ^ 32`, wrapped or not. -/
theorem sub32_millis (T0 t : Nat) (h1 : T0 ≤ t) (h2 : t < T0 + U32) :
    sub32 (millis t) (millis T0) = t - T0 := by
  simp only [sub32, millis, U32] at *
  omega

/-- Unsigned subtraction of two clock values never exceeds the real elapsed time. -/
theorem sub32_millis_le (T0 t : Nat) (h1 : T0 ≤ t) :
    sub32 (millis t) (millis T0) ≤ t - T0 := by
  simp only [sub32, millis, U32] at *
  omega

theorem sub32_self (a : Nat) : sub32 a a = 0 := by
  simp only [sub32, U32]
  omega

/-! ## Runs, step by step -/

theorem runWith_cons_fst (step : Tick → State → State × List Event) (s : State) (k : Tick)
    (ks : List Tick) : (runWith step s (k :: ks)).1 = (runWith step (step k s).1 ks).1 := rfl

theorem runWith_append_fst (step : Tick → State → State × List Event) (a b : List Tick) :
    ∀ s : State, (runWith step s (a ++ b)).1 = (runWith step (runWith step s a).1 b).1 := by
  induction a with
  | nil => intro s; rfl
  | cons k a ih => intro s; exact ih _

theorem runWith_snoc_fst (step : Tick → State → State × List Event) (a : List Tick) (k : Tick)
    (s : State) : (runWith step s (a ++ [k])).1 = (step k (runWith step s a).1).1 := by
  rw [runWith_append_fst]; rfl

/-! ## The empty-gallon timer while the water stays low -/

theorem atClock_now (k : Tick) : (atClock k).now = millis k.now := rfl

theorem atClock_raw (k : Tick) : (atClock k).raw = k.raw := rfl

/-- The scan that arms the timer: pump on, timer inactive, no alert, water low. -/
theorem scan_arm (k : Tick) (s : State) (hp : s.pumpOn = true)
    (ha : s.gallonEmptyDetectActive = false) (hg : s.gallonEmpty = false)
    (hw : isWaterLevelOk k.raw = false) : Armed (scan (atClock k) s).1 k.now := by
  simp [Armed, scan_fst, scanExpires, atClock_now, atClock_raw, hp, ha, hg, hw, sub32_self,
    GALLON_EMPTY_DETECT_MS]

/-- While armed and reading low, the expiry test compares the real elapsed time. -/
theorem scanExpires_armed (k : Tick) (s : State) (T0 : Nat) (h : Armed s T0)
    (hw : isWaterLevelOk k.raw = false) (h1 : T0 ≤ k.now) (h2 : k.now < T0 + U32) :
    scanExpires (atClock k) s = decide (k.now - T0 > GALLON_EMPTY_DETECT_MS) := by
  obtain ⟨hp, -, ha, hs⟩ := h
  simp [scanExpires, atClock_now, atClock_raw, hp, ha, hs, hw, sub32_millis T0 k.now h1 h2]

/-- An armed timer keeps counting through a low scan within the threshold. -/
theorem scan_armed_keep (k : Tick) (s : State) (T0 : Nat) (h : Armed s T0)
    (hw : isWaterLevelOk k.raw = false) (h1 : T0 ≤ k.now) (h2 : k.now < T0 + U32)
    (h3 : k.now - T0 ≤ GALLON_EMPTY_DETECT_MS) : Armed (scan (atClock k) s).1 T0 := by
  have he := scanExpires_armed k s T0 h hw h1 h2
  obtain ⟨hp, hg, ha, hs⟩ := h
  have h3' : ¬ (k.now - T0 > GALLON_EMPTY_DETECT_MS) := Nat.not_lt.mpr h3
  simp [Armed, scan_fst, he, atClock_raw, hp, ha, hg, hs, hw, h3']

/-- An armed timer fires in the first low scan beyond the threshold. -/
theorem scan_armed_fire (k : Tick) (s : State) (T0 : Nat) (h : Armed s T0)
    (hw : isWaterLevelOk k.raw = false) (h1 : T0 ≤ k.now) (h2 : k.now < T0 + U32)
    (h3 : k.now - T0 > GALLON_EMPTY_DETECT_MS) : Alerted (scan (atClock k) s).1 := by
  have he := scanExpires_armed k s T0 h hw h1 h2
  simp [Alerted, scan_fst, he, atClock_raw, hw, h3]

/-- A latched alert survives every low scan. -/
theorem scan_alerted_keep (k : Tick) (s : State) (h : Alerted s)
    (hw : isWaterLevelOk k.raw = false) : Alerted (scan k s).1 := by
  obtain ⟨hg, ha, hp, hh⟩ := h
  simp [Alerted, scan_fst, scanExpires, hg, hp, hw]

theorem runScans_alerted (ks : List Tick) : ∀ s : State, Alerted s →
    (∀ k ∈ ks, isWaterLevelOk k.raw = false) → Alerted (runScans s ks).1 := by
  induction ks with
  | nil => intro s h _; exact h
  | cons k ks ih =>
    intro s h hl
    exact ih _ (scan_alerted_keep k s h (hl k (List.mem_cons_self _ _)))
      (fun x hx => hl x (List.mem_cons_of_mem _ hx))

/-- From an armed state, through low scans at non-decreasing times less than `2 ^ 32` ms
after the start: after a scan the timer is still armed if the scan's time is within the
threshold of the start, and the alert is latched if it is beyond. -/
theorem runScans_armed_cases (T0 : Nat) (k : Tick) : ∀ (pre : List Tick) (s : State),
    Armed s T0 →
    List.Pairwise (fun a b : Tick => a.now ≤ b.now) (pre ++ [k]) →
    (∀ x ∈ pre ++ [k], isWaterLevelOk x.raw = false ∧ T0 ≤ x.now ∧ x.now < T0 + U32) →
    (k.now - T0 ≤ GALLON_EMPTY_DETECT_MS →
      Armed (runScans s ((pre ++ [k]).map atClock)).1 T0) ∧
    (k.now - T0 > GALLON_EMPTY_DETECT_MS →
      Alerted (runScans s ((pre ++ [k]).map atClock)).1) := by
  intro pre
  induction pre with
  | nil =>
    intro s h _ hx
    obtain ⟨hw, h1, h2⟩ := hx k (by simp)
    exact ⟨fun h3 => scan_armed_keep k s T0 h hw h1 h2 h3,
      fun h3 => scan_armed_fire k s T0 h hw h1 h2 h3⟩
  | cons p pre ih =>
    intro s h hs hx
    obtain ⟨hw, h1, h2⟩ := hx p (by simp)
    have hs' : List.Pairwise (fun a b : Tick => a.now ≤ b.now) (pre ++ [k]) :=
      (List.pairwise_cons.mp hs).2
    have hx' : ∀ x ∈ pre ++ [k],
        isWaterLevelOk x.raw = false ∧ T0 ≤ x.now ∧ x.now < T0 + U32 :=
      fun x hxm => hx x (List.mem_cons_of_mem _ hxm)
    have hpk : p.now ≤ k.now := (List.pairwise_cons.mp hs).1 k (by simp)
    show (_ → Armed (runWith scan (scan (atClock p) s).1 ((pre ++ [k]).map atClock)).1 T0) ∧
      (_ → Alerted (runWith scan (scan (atClock p) s).1 ((pre ++ [k]).map atClock)).1)
    by_cases h3 : p.now - T0 ≤ GALLON_EMPTY_DETECT_MS
    · exact ih _ (scan_armed_keep p s T0 h hw h1 h2 h3) hs' hx'
    · have hal := runScans_alerted ((pre ++ [k]).map atClock) _
        (scan_armed_fire p s T0 h hw h1 h2 (Nat.not_le.mp h3))
        (by
          intro x hxm
          obtain ⟨y, hy, rfl⟩ := List.mem_map.mp hxm
          exact (hx' y hy).1)
      refine ⟨fun h4 => ?_, fun _ => hal⟩
      have : p.now - T0 > GALLON_EMPTY_DETECT_MS := Nat.not_le.mp h3
      omega

/-- Low scans from a state with the pump on, the timer inactive and no alert: the first
scan arms the timer; after a later scan the timer is still armed if the scan is within the
threshold of the first, and the alert is latched if it is beyond. -/
theorem runScans_low_cases (s : State) (k0 : Tick) (ks : List Tick)
    (hp : s.pumpOn = true) (ha : s.gallonEmptyDetectActive = false)
    (hg : s.gallonEmpty = false)
    (hinc : List.Pairwise (fun a b : Tick => a.now < b.now) (k0 :: ks))
    (hlow : ∀ k ∈ k0 :: ks, isWaterLevelOk k.raw = false)
    (hspan : ∀ k ∈ k0 :: ks, k.now < k0.now + U32) :
    ∀ (pre : List Tick) (k : Tick) (post : List Tick), k0 :: ks = pre ++ k :: post →
      (k.now - k0.now ≤ GALLON_EMPTY_DETECT_MS →
        Armed (runScans s ((pre ++ [k]).map atClock)).1 k0.now) ∧
      (k.now - k0.now > GALLON_EMPTY_DETECT_MS →
        Alerted (runScans s ((pre ++ [k]).map atClock)).1) := by
  intro pre k post hsplit
  have harm := scan_arm k0 s hp ha hg (hlow k0 (List.mem_cons_self _ _))
  cases pre with
  | nil =>
    simp only [List.nil_append, List.cons.injEq] at hsplit
    obtain ⟨rfl, -⟩ := hsplit
    refine ⟨fun _ => harm, fun h => ?_⟩
    simp [GALLON_EMPTY_DETECT_MS] at h
  | cons p pre =>
    simp only [List.cons_append, List.cons.injEq] at hsplit
    obtain ⟨rfl, rfl⟩ := hsplit
    have hinc' := List.pairwise_cons.mp hinc
    have hsub : List.Sublist (pre ++ [k]) (pre ++ k :: post) :=
      List.Sublist.append_left (List.cons_sublist_cons.mpr (List.nil_sublist _)) pre
    refine runScans_armed_cases k0.now k pre _ harm ?_ ?_
    · exact (hinc'.2.sublist hsub).imp (fun h => Nat.le_of_lt h)
    · intro x hx
      have hx' : x ∈ pre ++ k :: post := hsub.subset hx
      exact ⟨hlow x (List.mem_cons_of_mem _ hx'), Nat.le_of_lt (hinc'.1 x hx'),
        hspan x (List.mem_cons_of_mem _ hx')⟩

/-- Low scans from a state with the pump on, the timer inactive and no alert: the alert
follows the real elapsed time since the first scan. -/
theorem runScans_low_iff (s : State) (k0 : Tick) (ks : List Tick)
    (hp : s.pumpOn = true) (ha : s.gallonEmptyDetectActive = false)
    (hg : s.gallonEmpty = false)
    (hinc : List.Pairwise (fun a b : Tick => a.now < b.now) (k0 :: ks))
    (hlow : ∀ k ∈ k0 :: ks, isWaterLevelOk k.raw = false)
    (hspan : ∀ k ∈ k0 :: ks, k.now < k0.now + U32) :
    ∀ (pre : List Tick) (k : Tick) (post : List Tick), k0 :: ks = pre ++ k :: post →
      ((runScans s ((pre ++ [k]).map atClock)).1.gallonEmpty = true ↔
        k.now - k0.now > GALLON_EMPTY_DETECT_MS) := by
  intro pre k post hsplit
  obtain ⟨h1, h2⟩ := runScans_low_cases s k0 ks hp ha hg hinc hlow hspan pre k post hsplit
  by_cases h : k.now - k0.now ≤ GALLON_EMPTY_DETECT_MS
  · rw [(h1 h).2.1]
    exact ⟨fun hc => Bool.noConfusion hc, fun hc => absurd hc (Nat.not_lt.mpr h)⟩
  · rw [(h2 (Nat.not_le.mp h)).1]
    exact ⟨fun _ => Nat.not_le.mp h, fun _ => rfl⟩

/-- C6: from a state with the pump on, the timer inactive and `gallonEmpty` false, through
scans at increasing real times `k0.now < ...` (all less than `2 ^ 32` ms after the first)
that all read water-low, `gallonEmpty` is true after a scan exactly when that scan's time is
more than `GALLON_EMPTY_DETECT_MS` after the first scan's: false up to and including
exactly 300000 ms, true from the first scan beyond. -/
theorem timer_threshold (s : State) (k0 : Tick) (ks : List Tick)
    (hp : s.pumpOn = true) (ha : s.gallonEmptyDetectActive = false)
    (hg : s.gallonEmpty = false)
    (hinc : List.Pairwise (fun a b : Tick => a.now < b.now) (k0 :: ks))
    (hlow : ∀ k ∈ k0 :: ks, isWaterLevelOk k.raw = false)
    (hspan : ∀ k ∈ k0 :: ks, k.now < k0.now + U32) :
    ∀ (pre : List Tick) (k : Tick) (post : List Tick), k0 :: ks = pre ++ k :: post →
      ((runScans s ((pre ++ [k]).map atClock)).1.gallonEmpty = true ↔
        k.now - k0.now > GALLON_EMPTY_DETECT_MS) :=
  runScans_low_iff s k0 ks hp ha hg hinc hlow hspan

/-- Witness for C6: pump on, scans at 0, 300000 and 300001 ms, all low. -/
theorem timer_threshold_witness :
    ({ initState with pumpOn := true } : State).pumpOn = true ∧
    (runScans { initState with pumpOn := true }
      ([Tick.mk 0 HIGH 0, Tick.mk 300000 HIGH 0].map atClock)).1.gallonEmpty = false ∧
    (runScans { initState with pumpOn := true }
      ([Tick.mk 0 HIGH 0, Tick.mk 300000 HIGH 0, Tick.mk 300001 HIGH 0].map atClock)
      ).1.gallonEmpty = true := by
  have h := timer_threshold { initState with pumpOn := true } (Tick.mk 0 HIGH 0)
    [Tick.mk 300000 HIGH 0, Tick.mk 300001 HIGH 0] rfl rfl rfl
    (by decide) (by decide) (by decide)
  refine ⟨rfl, ?_, ?_⟩
  · have h1 := h [Tick.mk 0 HIGH 0] (Tick.mk 300000 HIGH 0) [Tick.mk 300001 HIGH 0] rfl
    cases hg : (runScans { initState with pumpOn := true }
      ([Tick.mk 0 HIGH 0, Tick.mk 300000 HIGH 0].map atClock)).1.gallonEmpty
    · rfl
    · exact absurd (h1.mp hg) (by decide)
  · exact (h [Tick.mk 0 HIGH 0, Tick.mk 300000 HIGH 0] (Tick.mk 300001 HIGH 0) [] rfl).mpr
      (by decide)

/-! ## The timer restarts after water ok -/

/-- The timer is active after a scan only if the scan read low; its start is then the old
one if it was active before, and this scan's clock value if not. -/
theorem scan_active_after (k : Tick) (s : State)
    (h : (scan k s).1.gallonEmptyDetectActive = true) :
    isWaterLevelOk k.raw = false ∧
    ((s.gallonEmptyDetectActive = true ∧
        (scan k s).1.gallonEmptyDetectStartMs = s.gallonEmptyDetectStartMs) ∨
     (s.gallonEmptyDetectActive = false ∧ (scan k s).1.gallonEmptyDetectStartMs = k.now)) := by
  rw [scan_fst] at h ⊢
  cases hw : isWaterLevelOk k.raw <;> cases hp : s.pumpOn <;>
    cases ha : s.gallonEmptyDetectActive <;> simp_all

/-- The alert goes from false to true in a scan only by expiry of a timer that was already
active before the scan, in a scan that read low. -/
theorem scan_detect (k : Tick) (s : State) (hg : s.gallonEmpty = false)
    (h : (scan k s).1.gallonEmpty = true) :
    isWaterLevelOk k.raw = false ∧ s.gallonEmptyDetectActive = true ∧
      sub32 k.now s.gallonEmptyDetectStartMs > GALLON_EMPTY_DETECT_MS := by
  rw [scan_fst] at h
  simp only [hg, Bool.false_and, Bool.false_or, scanExpires, Bool.and_eq_true,
    decide_eq_true_eq] at h
  obtain ⟨⟨hp, hw⟩, hx⟩ := h
  have hw' : isWaterLevelOk k.raw = false := by simpa using hw
  cases ha : s.gallonEmptyDetectActive
  · simp [hp, hw', ha, sub32_self, GALLON_EMPTY_DETECT_MS] at hx
  · simp [hp, hw', ha] at hx
    exact ⟨hw', rfl, hx⟩

/-- An active timer was armed by an earlier scan of the run, whose clock value is its start,
and every scan since then read low. -/
theorem runScans_active_origin (s0 : State) (h0 : s0.gallonEmptyDetectActive = false)
    (pre : List Tick) :
    (runScans s0 (pre.map atClock)).1.gallonEmptyDetectActive = true →
      ∃ pre1 a mid, pre = pre1 ++ a :: mid ∧
        (∀ x ∈ a :: mid, isWaterLevelOk x.raw = false) ∧
        (runScans s0 (pre.map atClock)).1.gallonEmptyDetectStartMs = millis a.now := by
  induction pre using List.reverseRecOn with
  | nil =>
    intro h
    rw [show (runScans s0 (([] : List Tick).map atClock)).1 = s0 from rfl, h0] at h
    cases h
  | append_singleton pre k ih =>
    have hstep : (runScans s0 ((pre ++ [k]).map atClock)).1
        = (scan (atClock k) (runScans s0 (pre.map atClock)).1).1 := by
      rw [List.map_append]
      exact runWith_snoc_fst scan _ _ _
    rw [hstep]
    intro h
    obtain ⟨hw, hcase⟩ := scan_active_after _ _ h
    rcases hcase with ⟨hact, hst⟩ | ⟨-, hst⟩
    · obtain ⟨pre1, a, mid, rfl, hl, hs⟩ := ih hact
      refine ⟨pre1, a, mid ++ [k], by simp, ?_, by rw [hst, hs]⟩
      intro x hx
      rw [← List.cons_append, List.mem_append] at hx
      rcases hx with hx | hx
      · exact hl x hx
      · rw [List.mem_singleton.mp hx]; exact hw
    · refine ⟨pre, k, [], rfl, ?_, by rw [hst]; rfl⟩
      intro x hx
      rw [List.mem_singleton.mp hx]; exact hw

/-- One scan inside a window of at most the threshold keeps the timer quiet. -/
theorem scan_quiet (k : Tick) (s : State) (lo hi : Nat) (hlh : lo ≤ hi) (h : Quiet s lo hi)
    (h1 : hi ≤ k.now) (h2 : k.now ≤ lo + GALLON_EMPTY_DETECT_MS) :
    Quiet (scan (atClock k) s).1 lo k.now := by
  obtain ⟨hg, hact⟩ := h
  have hexp : scanExpires (atClock k) s = false := by
    cases he : scanExpires (atClock k) s
    · rfl
    · exfalso
      simp only [scanExpires, Bool.and_eq_true, decide_eq_true_eq, atClock_now, atClock_raw]
        at he
      obtain ⟨⟨hp, hw⟩, hx⟩ := he
      have hw' : isWaterLevelOk k.raw = false := by simpa using hw
      cases ha : s.gallonEmptyDetectActive
      · simp [hp, hw', ha, sub32_self, GALLON_EMPTY_DETECT_MS] at hx
      · obtain ⟨T, hT1, hT2, hT3⟩ := hact ha
        simp only [hp, hw', ha, hT3] at hx
        have := sub32_millis_le T k.now (le_trans hT2 h1)
        simp at hx
        omega
  refine ⟨by simp [scan_fst, hexp, hg], fun ha' => ?_⟩
  obtain ⟨-, hcase⟩ := scan_active_after _ _ ha'
  rcases hcase with ⟨hact', hst⟩ | ⟨-, hst⟩
  · obtain ⟨T, hT1, hT2, hT3⟩ := hact hact'
    exact ⟨T, hT1, le_trans hT2 h1, by rw [hst, hT3]⟩
  · exact ⟨k.now, le_trans hlh h1, le_refl _, by rw [hst]; rfl⟩

/-- Scans at non-decreasing times inside a window of at most the threshold raise no alert,
whatever they read. -/
theorem runScans_quiet (lo : Nat) : ∀ (ks : List Tick) (s : State) (hi : Nat), lo ≤ hi →
    Quiet s lo hi → List.Pairwise (fun a b : Tick => a.now ≤ b.now) ks →
    (∀ k ∈ ks, hi ≤ k.now ∧ k.now ≤ lo + GALLON_EMPTY_DETECT_MS) →
    (runScans s (ks.map atClock)).1.gallonEmpty = false := by
  intro ks
  induction ks with
  | nil => intro s hi _ h _ _; exact h.1
  | cons k ks ih =>
    intro s hi hlh h hs hk
    obtain ⟨h1, h2⟩ := hk k (List.mem_cons_self _ _)
    have hs' := List.pairwise_cons.mp hs
    exact ih _ k.now (le_trans hlh h1) (scan_quiet k s lo hi hlh h h1 h2) hs'.2
      (fun x hx => ⟨hs'.1 x hx, (hk x (List.mem_cons_of_mem _ hx)).2⟩)

/-- From a state without alert and with the timer inactive, scans at non-decreasing times
spanning at most the threshold raise no alert. -/
theorem runScans_span_quiet (ks : List Tick) (s : State) (hg : s.gallonEmpty = false)
    (ha : s.gallonEmptyDetectActive = false)
    (hs : List.Pairwise (fun a b : Tick => a.now ≤ b.now) ks)
    (hspan : ∀ x ∈ ks, ∀ y ∈ ks, y.now ≤ x.now + GALLON_EMPTY_DETECT_MS) :
    (runScans s (ks.map atClock)).1.gallonEmpty = false := by
  cases ks with
  | nil => exact hg
  | cons k ks =>
    refine runScans_quiet k.now (k :: ks) s k.now (le_refl _) ⟨hg, fun h => ?_⟩ hs ?_
    · rw [ha] at h; cases h
    · intro x hx
      refine ⟨?_, hspan k (List.mem_cons_self _ _) x hx⟩
      rcases List.mem_cons.mp hx with rfl | hx'
      · exact le_refl _
      · exact (List.pairwise_cons.mp hs).1 x hx'

/-- After a scan that read water-ok there is no alert and the timer is inactive. -/
theorem scan_ok_clears (k : Tick) (s : State) (h : isWaterLevelOk k.raw = true) :
    (scan k s).1.gallonEmpty = false ∧ (scan k s).1.gallonEmptyDetectActive = false := by
  simp [scan_fst, h, scanExpires_of_ok]

/-- C7: through scans at non-decreasing real times from the boot state, if `gallonEmpty`
goes from false to true at a scan `k`, then an earlier scan `a` armed the timer, every scan
from `a` to `k` read water-low, and more than 300000 ms of real time lie between them. In
particular, if the scans are a first phase spanning at most 200000 ms, then one scan that
reads water-ok, then a second phase spanning at most 250000 ms, `gallonEmpty` is false
after every scan (whatever the two phases read, so also when they read low throughout). -/
theorem timer_reset (raw0 : Int) (ks : List Tick)
    (hs : List.Pairwise (fun a b : Tick => a.now ≤ b.now) ks) :
    (∀ (pre : List Tick) (k : Tick) (post : List Tick), ks = pre ++ k :: post →
      (runScans (boot raw0) (pre.map atClock)).1.gallonEmpty = false →
      (runScans (boot raw0) ((pre ++ [k]).map atClock)).1.gallonEmpty = true →
      ∃ pre1 a mid, pre = pre1 ++ a :: mid ∧
        (∀ x ∈ a :: mid ++ [k], isWaterLevelOk x.raw = false) ∧
        k.now - a.now > GALLON_EMPTY_DETECT_MS) ∧
    (∀ (l1 : List Tick) (ok : Tick) (l2 : List Tick), ks = l1 ++ ok :: l2 →
      isWaterLevelOk ok.raw = true →
      (∀ x ∈ l1, ∀ y ∈ l1, y.now ≤ x.now + 200000) →
      (∀ x ∈ l2, ∀ y ∈ l2, y.now ≤ x.now + 250000) →
      (∀ p, p <+: l1 → (runScans (boot raw0) (p.map atClock)).1.gallonEmpty = false) ∧
      (runScans (boot raw0) ((l1 ++ [ok]).map atClock)).1.gallonEmpty = false ∧
      (∀ p, p <+: l2 →
        (runScans (boot raw0) ((l1 ++ ok :: p).map atClock)).1.gallonEmpty = false)) := by
  constructor
  · intro pre k post hsplit hbefore hafter
    have hstep : (runScans (boot raw0) ((pre ++ [k]).map atClock)).1
        = (scan (atClock k) (runScans (boot raw0) (pre.map atClock)).1).1 := by
      rw [List.map_append]
      exact runWith_snoc_fst scan _ _ _
    rw [hstep] at hafter
    obtain ⟨hw, hact, hx⟩ := scan_detect _ _ hbefore hafter
    obtain ⟨pre1, a, mid, hpre, hl, hst⟩ := runScans_active_origin (boot raw0) rfl pre hact
    refine ⟨pre1, a, mid, hpre, ?_, ?_⟩
    · intro x hx'
      rcases List.mem_append.mp hx' with h1 | h1
      · exact hl x h1
      · rw [List.mem_singleton.mp h1]; exact hw
    · have hak : a.now ≤ k.now := by
        rw [hsplit] at hs
        refine (List.pairwise_append.mp hs).2.2 a ?_ k (List.mem_cons_self _ _)
        rw [hpre]; simp
      rw [hst, atClock_now] at hx
      have := sub32_millis_le a.now k.now hak
      omega
  · intro l1 ok l2 hsplit hok hspan1 hspan2
    rw [hsplit] at hs
    obtain ⟨hs1, hs2', -⟩ := List.pairwise_append.mp hs
    have hs2 := (List.pairwise_cons.mp hs2').2
    have hmid : (runScans (boot raw0) ((l1 ++ [ok]).map atClock)).1
        = (scan (atClock ok) (runScans (boot raw0) (l1.map atClock)).1).1 := by
      rw [List.map_append]
      exact runWith_snoc_fst scan _ _ _
    have hclr := scan_ok_clears (atClock ok) (runScans (boot raw0) (l1.map atClock)).1 hok
    refine ⟨fun p hp => ?_, by rw [hmid]; exact hclr.1, fun p hp => ?_⟩
    · refine runScans_span_quiet p _ rfl rfl (hs1.sublist hp.sublist) ?_
      intro x hx y hy
      have := hspan1 x (hp.subset hx) y (hp.subset hy)
      simp only [GALLON_EMPTY_DETECT_MS]
      omega
    · have happ : (runScans (boot raw0) ((l1 ++ ok :: p).map atClock)).1
          = (runScans (runScans (boot raw0) ((l1 ++ [ok]).map atClock)).1
              (p.map atClock)).1 := by
        rw [show l1 ++ ok :: p = (l1 ++ [ok]) ++ p by simp, List.map_append]
        exact runWith_append_fst scan _ _ _
      rw [happ, hmid]
      refine runScans_span_quiet p _ hclr.1 hclr.2 (hs2.sublist hp.sublist) ?_
      intro x hx y hy
      have := hspan2 x (hp.subset hx) y (hp.subset hy)
      simp only [GALLON_EMPTY_DETECT_MS]
      omega

/-- Witness for C7: from boot, low scans at 100, 200 and 300300 ms: the scan at 100 switches
the pump on, the scan at 200 arms the timer and the scan at 300300 raises the alert. -/
theorem timer_reset_witness :
    List.Pairwise (fun a b : Tick => a.now ≤ b.now)
      [Tick.mk 100 HIGH 100, Tick.mk 200 HIGH 200, Tick.mk 300300 HIGH 300300] ∧
    ∃ pre1 a mid, [Tick.mk 100 HIGH 100, Tick.mk 200 HIGH 200] = pre1 ++ a :: mid ∧
      (∀ x ∈ a :: mid ++ [Tick.mk 300300 HIGH 300300], isWaterLevelOk x.raw = false) ∧
      (Tick.mk 300300 HIGH 300300).now - a.now > GALLON_EMPTY_DETECT_MS :=
  ⟨by decide,
    (timer_reset HIGH
      [Tick.mk 100 HIGH 100, Tick.mk 200 HIGH 200, Tick.mk 300300 HIGH 300300]
      (by decide)).1
      [Tick.mk 100 HIGH 100, Tick.mk 200 HIGH 200] (Tick.mk 300300 HIGH 300300) [] rfl
      (by decide) (by decide)⟩

/-! ## The scenario with a scan every 100 ms -/

theorem scansFrom_mem (m : Nat) : ∀ (t : Nat) (x : Tick), x ∈ scansFrom t m →
    isWaterLevelOk x.raw = false ∧ t ≤ x.now ∧
      x.now + SCAN_INTERVAL_MS ≤ t + SCAN_INTERVAL_MS * m := by
  induction m with
  | zero => intro t x hx; cases hx
  | succ m ih =>
    intro t x hx
    rcases List.mem_cons.mp hx with rfl | hx'
    · refine ⟨rfl, le_refl _, ?_⟩
      simp only [SCAN_INTERVAL_MS]; omega
    · obtain ⟨h1, h2, h3⟩ := ih _ x hx'
      refine ⟨h1, ?_, ?_⟩
      · simp only [SCAN_INTERVAL_MS] at *; omega
      · simp only [SCAN_INTERVAL_MS] at *; omega

theorem scansFrom_pairwise (m : Nat) : ∀ t : Nat,
    List.Pairwise (fun a b : Tick => a.now < b.now) (scansFrom t m) := by
  induction m with
  | zero => intro t; exact List.Pairwise.nil
  | succ m ih =>
    intro t
    refine List.pairwise_cons.mpr ⟨fun x hx => ?_, ih _⟩
    have := (scansFrom_mem m _ x hx).2.1
    simp only [SCAN_INTERVAL_MS] at this
    show t < x.now
    omega

theorem scansFrom_succ (m : Nat) : ∀ t : Nat,
    scansFrom t (m + 1)
      = scansFrom t m ++ [Tick.mk (t + SCAN_INTERVAL_MS * m) HIGH (t + SCAN_INTERVAL_MS * m)] := by
  induction m with
  | zero => intro t; simp [scansFrom]
  | succ m ih =>
    intro t
    have e : t + SCAN_INTERVAL_MS + SCAN_INTERVAL_MS * m = t + SCAN_INTERVAL_MS * (m + 1) := by
      simp only [SCAN_INTERVAL_MS]; omega
    show Tick.mk t HIGH t :: scansFrom (t + SCAN_INTERVAL_MS) (m + 1)
      = (Tick.mk t HIGH t :: scansFrom (t + SCAN_INTERVAL_MS) m) ++ _
    rw [ih, e]
    rfl

/-- The scan that switches the pump on: pump off, no alert, water low. -/
theorem scan_pump_on (k : Tick) (s : State) (hp : s.pumpOn = false)
    (hg : s.gallonEmpty = false) (hw : isWaterLevelOk k.raw = false) :
    (scan k s).1.pumpOn = true ∧ (scan k s).1.gallonEmptyDetectActive = false ∧
      (scan k s).1.gallonEmpty = false := by
  simp [scan_fst, scanExpires, hp, hg, hw]

theorem scansFrom_add (a b : Nat) : ∀ t : Nat,
    scansFrom t (a + b) = scansFrom t a ++ scansFrom (t + SCAN_INTERVAL_MS * a) b := by
  induction a with
  | zero => intro t; simp [scansFrom]
  | succ a ih =>
    intro t
    have e : t + SCAN_INTERVAL_MS + SCAN_INTERVAL_MS * a = t + SCAN_INTERVAL_MS * (a + 1) := by
      simp only [SCAN_INTERVAL_MS]; omega
    rw [show a + 1 + b = (a + b) + 1 by omega]
    show Tick.mk t HIGH t :: scansFrom (t + SCAN_INTERVAL_MS) (a + b)
      = (Tick.mk t HIGH t :: scansFrom (t + SCAN_INTERVAL_MS) a) ++ _
    rw [ih, e]
    rfl

/-- In the scenario started at real time `T0`, from a state with the pump off and no alert,
after the scans at times `T0, T0 + 100, ..., T0 + 100 * (n + 1)` ms: the timer, armed by the
scan at `T0 + 100`, is still counting if `100 * n` is within the threshold, and the alert is
latched if it is beyond. -/
theorem scansFrom_cases (s : State) (T0 : Nat) (hp : s.pumpOn = false)
    (hg : s.gallonEmpty = false) (n : Nat) (hn : SCAN_INTERVAL_MS * (n + 1) < U32) :
    (SCAN_INTERVAL_MS * n ≤ GALLON_EMPTY_DETECT_MS →
      Armed (runScans s ((scansFrom T0 (n + 2)).map atClock)).1 (T0 + SCAN_INTERVAL_MS)) ∧
    (SCAN_INTERVAL_MS * n > GALLON_EMPTY_DETECT_MS →
      Alerted (runScans s ((scansFrom T0 (n + 2)).map atClock)).1) := by
  obtain ⟨h1, h2, h3⟩ := scan_pump_on (atClock (Tick.mk T0 HIGH T0)) s hp hg rfl
  have hsplit : Tick.mk (T0 + SCAN_INTERVAL_MS) HIGH (T0 + SCAN_INTERVAL_MS)
        :: scansFrom (T0 + SCAN_INTERVAL_MS + SCAN_INTERVAL_MS) n
      = scansFrom (T0 + SCAN_INTERVAL_MS) n
        ++ Tick.mk (T0 + SCAN_INTERVAL_MS + SCAN_INTERVAL_MS * n) HIGH
            (T0 + SCAN_INTERVAL_MS + SCAN_INTERVAL_MS * n) :: [] :=
    scansFrom_succ n (T0 + SCAN_INTERVAL_MS)
  have hmem := scansFrom_mem (n + 1) (T0 + SCAN_INTERVAL_MS)
  have hpw := scansFrom_pairwise (n + 1) (T0 + SCAN_INTERVAL_MS)
  have hc := runScans_low_cases (scan (atClock (Tick.mk T0 HIGH T0)) s).1
    (Tick.mk (T0 + SCAN_INTERVAL_MS) HIGH (T0 + SCAN_INTERVAL_MS))
    (scansFrom (T0 + SCAN_INTERVAL_MS + SCAN_INTERVAL_MS) n) h1 h2 h3 hpw
    (fun x hx => (hmem x hx).1)
    (fun x hx => by
      have := (hmem x hx).2.2
      simp only [SCAN_INTERVAL_MS, U32] at *
      omega)
    _ _ [] hsplit
  have hrun : (runScans s ((scansFrom T0 (n + 2)).map atClock)).1
      = (runScans (scan (atClock (Tick.mk T0 HIGH T0)) s).1
          ((scansFrom (T0 + SCAN_INTERVAL_MS) n
            ++ [Tick.mk (T0 + SCAN_INTERVAL_MS + SCAN_INTERVAL_MS * n) HIGH
              (T0 + SCAN_INTERVAL_MS + SCAN_INTERVAL_MS * n)]).map atClock)).1 := by
    rw [← hsplit]
    rfl
  rw [hrun]
  simp only [SCAN_INTERVAL_MS, Nat.add_sub_cancel_left] at hc ⊢
  exact hc

/-- In the scenario started at real time `T0`, from a state with the pump off and no alert:
the alert is latched after the scan at `T0 + 100 * n` ms exactly when `100 * n ≥ 300200`;
once latched, pump and heater are off. -/
theorem scansFrom_alert (s : State) (T0 : Nat) (hp : s.pumpOn = false)
    (hg : s.gallonEmpty = false) (n : Nat) :
    ((runScans s ((scansFrom T0 (n + 1)).map atClock)).1.gallonEmpty = true ↔
      GALLON_EMPTY_DETECT_MS + 2 * SCAN_INTERVAL_MS ≤ SCAN_INTERVAL_MS * n) ∧
    (GALLON_EMPTY_DETECT_MS + 2 * SCAN_INTERVAL_MS ≤ SCAN_INTERVAL_MS * n →
      Alerted (runScans s ((scansFrom T0 (n + 1)).map atClock)).1) := by
  cases n with
  | zero =>
    have h3 := (scan_pump_on (atClock (Tick.mk T0 HIGH T0)) s hp hg rfl).2.2
    have hrun : (runScans s ((scansFrom T0 (0 + 1)).map atClock)).1
        = (scan (atClock (Tick.mk T0 HIGH T0)) s).1 := rfl
    rw [hrun, h3]
    simp [GALLON_EMPTY_DETECT_MS, SCAN_INTERVAL_MS]
  | succ m =>
    by_cases hm : m ≤ 3000
    · have hc := (scansFrom_cases s T0 hp hg m
        (by simp only [SCAN_INTERVAL_MS, U32]; omega)).1
        (by simp only [SCAN_INTERVAL_MS, GALLON_EMPTY_DETECT_MS]; omega)
      rw [hc.2.1]
      simp only [SCAN_INTERVAL_MS, GALLON_EMPTY_DETECT_MS]
      refine ⟨⟨fun hc' => Bool.noConfusion hc', fun hc' => ?_⟩, fun hc' => ?_⟩ <;>
      · exfalso; omega
    · have hal := (scansFrom_cases s T0 hp hg 3001 (by norm_num [SCAN_INTERVAL_MS, U32])).2
        (by norm_num [SCAN_INTERVAL_MS, GALLON_EMPTY_DETECT_MS])
      have hsplit : scansFrom T0 (m + 1 + 1) = scansFrom T0 (3001 + 2)
          ++ scansFrom (T0 + SCAN_INTERVAL_MS * (3001 + 2)) (m - 3001) := by
        have e : m + 1 + 1 = (3001 + 2) + (m - 3001) := by omega
        rw [e]
        exact scansFrom_add _ _ _
      have hrest := runScans_alerted
        ((scansFrom (T0 + SCAN_INTERVAL_MS * (3001 + 2)) (m - 3001)).map atClock) _ hal
        (by
          intro x hx
          obtain ⟨y, hy, rfl⟩ := List.mem_map.mp hx
          exact (scansFrom_mem _ _ y hy).1)
      have hrun : (runScans s ((scansFrom T0 (m + 1 + 1)).map atClock)).1
          = (runScans (runScans s ((scansFrom T0 (3001 + 2)).map atClock)).1
              ((scansFrom (T0 + SCAN_INTERVAL_MS * (3001 + 2)) (m - 3001)).map atClock)).1 := by
        rw [hsplit, List.map_append]
        exact runWith_append_fst scan _ _ _
      rw [hrun]
      refine ⟨⟨fun _ => ?_, fun _ => hrest.1⟩, fun _ => hrest⟩
      simp only [SCAN_INTERVAL_MS, GALLON_EMPTY_DETECT_MS]
      omega

/-- After a non-empty sequence of scans, `lastScanMs` is the clock value of the last one. -/
theorem runScans_snoc_lastScanMs (s : State) (pre : List Tick) (k : Tick) :
    (runScans s ((pre ++ [k]).map atClock)).1.lastScanMs = millis k.now := by
  rw [List.map_append]
  show (runWith scan s (pre.map atClock ++ [atClock k])).1.lastScanMs = _
  rw [runWith_snoc_fst, scan_fst]
  rfl

/-! ## The scenario as `loop()` passes -/

theorem sameCore_refl (a : State) : SameCore a a :=
  ⟨rfl, rfl, rfl, rfl, rfl, rfl, rfl, rfl, rfl⟩

theorem sameCore_trans (a b c : State) (h1 : SameCore a b) (h2 : SameCore b c) :
    SameCore a c := by
  obtain ⟨a1, a2, a3, a4, a5, a6, a7, a8, a9⟩ := h1
  obtain ⟨b1, b2, b3, b4, b5, b6, b7, b8, b9⟩ := h2
  exact ⟨a1.trans b1, a2.trans b2, a3.trans b3, a4.trans b4, a5.trans b5, a6.trans b6,
    a7.trans b7, a8.trans b8, a9.trans b9⟩

/-- A scan reads none of the blinker's variables. -/
theorem scan_sameCore (k : Tick) (a b : State) (h : SameCore a b) :
    SameCore (scan k a).1 (scan k b).1 := by
  obtain ⟨a1, a2, a3, a4, a5, a6, a7, a8, a9⟩ := h
  simp only [SameCore, scan_fst, scanExpires, a1, a2, a3, a4, a5, a6, a7, a8, a9, and_self]

/-- A pass in which a scan is due ends, but for the blinker's variables, as its scan. -/
theorem loop_due_sameCore (k : Tick) (s : State) (h : scanDue k s = true) :
    SameCore (loop k s).1 (scan k s).1 := by
  obtain ⟨f1, f2, f3, f4, f5, f6, f7, f8, f9⟩ := loop_frame k s
  rw [h, if_pos rfl] at f1 f2 f3 f4 f5 f6 f7 f8 f9
  exact ⟨f7, f1, f9, f3, f8, f2, f5, f4, f6⟩

/-- In the scenario every pass runs a scan: the passes at `T0, T0 + 100, ...` from a state in
which the scan at `T0` is due are all due (each is 100 ms after the last scan) and read
low, and the run of passes ends, but for the blinker's variables, as the run of scans. -/
theorem run_scansFrom (n : Nat) : ∀ (T0 : Nat) (a b : State), SameCore a b →
    scanDue (atClock (Tick.mk T0 HIGH T0)) a = true →
    SameCore (run a ((scansFrom T0 n).map atClock)).1
      (runScans b ((scansFrom T0 n).map atClock)).1 ∧
    scanReadings a ((scansFrom T0 n).map atClock) = List.replicate n false := by
  induction n with
  | zero => intro T0 a b h _; exact ⟨h, rfl⟩
  | succ n ih =>
    intro T0 a b h hdue
    have hcore : SameCore (loop (atClock (Tick.mk T0 HIGH T0)) a).1
        (scan (atClock (Tick.mk T0 HIGH T0)) b).1 :=
      sameCore_trans _ _ _ (loop_due_sameCore _ a hdue) (scan_sameCore _ a b h)
    have hnext : scanDue (atClock (Tick.mk (T0 + SCAN_INTERVAL_MS) HIGH (T0 + SCAN_INTERVAL_MS)))
        (loop (atClock (Tick.mk T0 HIGH T0)) a).1 = true := by
      have hls : (loop (atClock (Tick.mk T0 HIGH T0)) a).1.lastScanMs = millis T0 := by
        rw [hcore.1, scan_fst]
        rfl
      have hsub : sub32 (millis (T0 + SCAN_INTERVAL_MS)) (millis T0) = SCAN_INTERVAL_MS := by
        rw [sub32_millis T0 (T0 + SCAN_INTERVAL_MS) (Nat.le_add_right _ _)
          (by simp only [SCAN_INTERVAL_MS, U32]; omega)]
        omega
      unfold scanDue
      rw [hls, atClock_now, hsub]
      exact decide_eq_true (le_refl _)
    obtain ⟨ih1, ih2⟩ := ih (T0 + SCAN_INTERVAL_MS) _ _ hcore hnext
    refine ⟨ih1, ?_⟩
    show (if scanDue (atClock (Tick.mk T0 HIGH T0)) a = true
        then [isWaterLevelOk (atClock (Tick.mk T0 HIGH T0)).raw] else [])
      ++ scanReadings (loop (atClock (Tick.mk T0 HIGH T0)) a).1
          ((scansFrom (T0 + SCAN_INTERVAL_MS) n).map atClock) = _
    rw [hdue, if_pos rfl, ih2]
    rfl

/-- In the scenario as `loop()` passes: the alert is latched after the pass at
`T0 + 100 * n` ms exactly when `100 * n ≥ 300200`. -/
theorem run_scansFrom_alert (s : State) (T0 : Nat) (hp : s.pumpOn = false)
    (hg : s.gallonEmpty = false)
    (hdue : scanDue (atClock (Tick.mk T0 HIGH T0)) s = true) (n : Nat) :
    (run s ((scansFrom T0 (n + 1)).map atClock)).1.gallonEmpty = true ↔
      GALLON_EMPTY_DETECT_MS + 2 * SCAN_INTERVAL_MS ≤ SCAN_INTERVAL_MS * n := by
  rw [(run_scansFrom (n + 1) T0 s s (sameCore_refl s) hdue).1.2.2.2.1]
  exact (scansFrom_alert s T0 hp hg n).1

/-- C8 (as amended): the scenario with a `loop()` pass every 100 ms, each running a scan
that reads water-low, from a state with the pump off and no alert in which the scan at `T0`
is due; `t` is counted from that scan. The scan at `t = 0` switches the pump on and leaves
the timer inactive; the next scan, at `t = 100`, arms the timer (start = its clock value);
`gallonEmpty` is true after the scan at `t = 100 * n` exactly when `100 * n ≥ 300200`: it
is still false after the scan at `t = 300100` and flips to true at the scan at
`t = 300200`, and pump and heater are both off at the end of that scan. -/
theorem scenario_detect (s : State) (T0 : Nat) (hp : s.pumpOn = false)
    (hg : s.gallonEmpty = false)
    (hdue : scanDue (atClock (Tick.mk T0 HIGH T0)) s = true) :
    (∀ n : Nat, scanReadings s ((scansFrom T0 n).map atClock) = List.replicate n false) ∧
    ((run s ((scansFrom T0 1).map atClock)).1.pumpOn = true ∧
      (run s ((scansFrom T0 1).map atClock)).1.gallonEmptyDetectActive = false) ∧
    ((run s ((scansFrom T0 2).map atClock)).1.pumpOn = true ∧
      (run s ((scansFrom T0 2).map atClock)).1.gallonEmptyDetectActive = true ∧
      (run s ((scansFrom T0 2).map atClock)).1.gallonEmptyDetectStartMs
        = millis (T0 + SCAN_INTERVAL_MS)) ∧
    (∀ n : Nat, (run s ((scansFrom T0 (n + 1)).map atClock)).1.gallonEmpty = true ↔
      GALLON_EMPTY_DETECT_MS + 2 * SCAN_INTERVAL_MS ≤ SCAN_INTERVAL_MS * n) ∧
    (run s ((scansFrom T0 (3001 + 1)).map atClock)).1.gallonEmpty = false ∧
    (run s ((scansFrom T0 (3002 + 1)).map atClock)).1.gallonEmpty = true ∧
    (run s ((scansFrom T0 (3002 + 1)).map atClock)).1.pumpOn = false ∧
    (run s ((scansFrom T0 (3002 + 1)).map atClock)).1.lastHeaterState = false := by
  have hcore : ∀ n : Nat, SameCore (run s ((scansFrom T0 n).map atClock)).1
      (runScans s ((scansFrom T0 n).map atClock)).1 :=
    fun n => (run_scansFrom n T0 s s (sameCore_refl s) hdue).1
  have hon := scan_pump_on (atClock (Tick.mk T0 HIGH T0)) s hp hg rfl
  have harm := (scansFrom_cases s T0 hp hg 0 (by norm_num [SCAN_INTERVAL_MS, U32])).1
    (by norm_num [SCAN_INTERVAL_MS, GALLON_EMPTY_DETECT_MS])
  have hal := (scansFrom_alert s T0 hp hg 3002).2
    (by norm_num [SCAN_INTERVAL_MS, GALLON_EMPTY_DETECT_MS])
  have hiff : ∀ n : Nat, (run s ((scansFrom T0 (n + 1)).map atClock)).1.gallonEmpty = true ↔
      GALLON_EMPTY_DETECT_MS + 2 * SCAN_INTERVAL_MS ≤ SCAN_INTERVAL_MS * n := by
    intro n
    rw [(hcore (n + 1)).2.2.2.1]
    exact (scansFrom_alert s T0 hp hg n).1
  refine ⟨fun n => (run_scansFrom n T0 s s (sameCore_refl s) hdue).2, ⟨?_, ?_⟩,
    ⟨?_, ?_, ?_⟩, hiff, ?_, ?_, ?_, ?_⟩
  · rw [(hcore 1).2.1]; exact hon.1
  · rw [(hcore 1).2.2.2.2.2.2.2.1]; exact hon.2.1
  · rw [(hcore (0 + 2)).2.1]; exact harm.1
  · rw [(hcore (0 + 2)).2.2.2.2.2.2.2.1]; exact harm.2.2.1
  · rw [(hcore (0 + 2)).2.2.2.2.2.2.1]; exact harm.2.2.2
  · cases hge : (run s ((scansFrom T0 (3001 + 1)).map atClock)).1.gallonEmpty
    · rfl
    · have := (hiff 3001).mp hge
      norm_num [SCAN_INTERVAL_MS, GALLON_EMPTY_DETECT_MS] at this
  · rw [(hcore (3002 + 1)).2.2.2.1]; exact hal.1
  · rw [(hcore (3002 + 1)).2.1]; exact hal.2.2.1
  · rw [(hcore (3002 + 1)).2.2.2.2.2.1]; exact hal.2.2.2

/-- Witness for C8 (as amended): from the boot state the first scan is due at clock value
100, which is `t = 0` of the scenario; it switches the pump on. -/
theorem scenario_detect_witness :
    (boot HIGH).pumpOn = false ∧ (boot HIGH).gallonEmpty = false ∧
    scanDue (atClock (Tick.mk 100 HIGH 100)) (boot HIGH) = true ∧
    (run (boot HIGH) ((scansFrom 100 1).map atClock)).1.pumpOn = true :=
  ⟨rfl, rfl, by decide, (scenario_detect (boot HIGH) 100 rfl rfl (by decide)).2.1.1⟩

/-- C8 as stated fails. From the boot state, with a `loop()` pass every 100 ms reading low:
the first scan runs at clock value 100 and switches the pump on (`t = 0` of the scenario);
`gallonEmpty` is still false after the scan at `t = 300000` (clock 300100); at `t = 300001`
(clock 300101) no scan is due and a `loop()` pass leaves `gallonEmpty` false; it is still
false after the scan at `t = 300100` and true only after the scan at `t = 300200`. -/
theorem scenario_300001_counterexample :
    scanDue (atClock (Tick.mk 100 HIGH 100)) (boot HIGH) = true ∧
    (run (boot HIGH) ((scansFrom 100 1).map atClock)).1.pumpOn = true ∧
    (run (boot HIGH) ((scansFrom 100 (3000 + 1)).map atClock)).1.gallonEmpty = false ∧
    scanDue (atClock (Tick.mk 300101 HIGH 300101))
      (run (boot HIGH) ((scansFrom 100 (3000 + 1)).map atClock)).1 = false ∧
    (loop (atClock (Tick.mk 300101 HIGH 300101))
      (run (boot HIGH) ((scansFrom 100 (3000 + 1)).map atClock)).1).1.gallonEmpty = false ∧
    (run (boot HIGH) ((scansFrom 100 (3001 + 1)).map atClock)).1.gallonEmpty = false ∧
    (run (boot HIGH) ((scansFrom 100 (3002 + 1)).map atClock)).1.gallonEmpty = true := by
  have hdue0 : scanDue (atClock (Tick.mk 100 HIGH 100)) (boot HIGH) = true := by decide
  have hfalse : ∀ n : Nat, n ≤ 3001 →
      (run (boot HIGH) ((scansFrom 100 (n + 1)).map atClock)).1.gallonEmpty = false := by
    intro n hn
    cases hge : (run (boot HIGH) ((scansFrom 100 (n + 1)).map atClock)).1.gallonEmpty
    · rfl
    · have := (run_scansFrom_alert (boot HIGH) 100 rfl rfl hdue0 n).mp hge
      simp only [SCAN_INTERVAL_MS, GALLON_EMPTY_DETECT_MS] at this
      omega
  have hls : (run (boot HIGH) ((scansFrom 100 (3000 + 1)).map atClock)).1.lastScanMs
      = millis (100 + SCAN_INTERVAL_MS * 3000) := by
    rw [(run_scansFrom (3000 + 1) 100 (boot HIGH) (boot HIGH) (sameCore_refl _) hdue0).1.1,
      scansFrom_succ, runScans_snoc_lastScanMs]
  have hdue : scanDue (atClock (Tick.mk 300101 HIGH 300101))
      (run (boot HIGH) ((scansFrom 100 (3000 + 1)).map atClock)).1 = false := by
    unfold scanDue
    rw [hls]
    norm_num [atClock, millis, sub32, U32, SCAN_INTERVAL_MS]
  refine ⟨hdue0,
    ((run_scansFrom 1 100 (boot HIGH) (boot HIGH) (sameCore_refl _) hdue0).1.2.1).trans
      (scan_pump_on (atClock (Tick.mk 100 HIGH 100)) (boot HIGH) rfl rfl rfl).1,
    hfalse 3000 (by omega), hdue, ?_, hfalse 3001 (by omega),
    (run_scansFrom_alert (boot HIGH) 100 rfl rfl hdue0 3002).mpr
      (by norm_num [SCAN_INTERVAL_MS, GALLON_EMPTY_DETECT_MS])⟩
  rw [loop_not_due_gallonEmpty _ _ hdue]
  exact hfalse 3000 (by omega)

/-! ## Water ok from boot -/

/-- One pass that reads water-ok, from a state with pump, alert, indicator intent and LED
off: they stay off, no pump or LED write is emitted, and the heater is switched on (with one
write) if a scan runs and it was off. -/
theorem loop_ok_step (k : Tick) (s : State) (hw : isWaterLevelOk k.raw = true)
    (hp : s.pumpOn = false) (hg : s.gallonEmpty = false)
    (hi : s.waterEmptyLedShouldBeActive = false) (hl : s.ledWaterEmptyState = false) :
    ((loop k s).1.pumpOn = false ∧ (loop k s).1.gallonEmpty = false ∧
      (loop k s).1.waterEmptyLedShouldBeActive = false ∧
      (loop k s).1.ledWaterEmptyState = false) ∧
    (loop k s).1.lastHeaterState = (s.lastHeaterState || scanDue k s) ∧
    writesTo Pin.RELAY_PUMP_PIN (loop k s).2 = [] ∧
    writesTo Pin.WATER_EMPTY_LED_PIN (loop k s).2 = [] ∧
    writesTo Pin.BUILTIN_LED_PIN (loop k s).2 = [] ∧
    writesTo Pin.RELAY_HEATER_PIN (loop k s).2
      = (if scanDue k s && !s.lastHeaterState then [ON_STATE] else []) := by
  rcases s with ⟨ls, po, ps, lb, led, ge, lw, lh, gs, ga, wi⟩
  simp only at hp hg hi hl
  subst hp hg hi hl
  cases hd : scanDue k ⟨ls, false, ps, lb, false, false, lw, lh, gs, ga, false⟩ <;>
    cases lw <;> cases lh <;> cases ga <;>
      simp [loop, hd, scan, scanTimer, timerUpdate, timerStateUpdate, timerExpiry,
        controlPolicy, policyBranch, runBranch, logWaterChange, setPump, setHeater,
        updateWaterEmptyLed, andThen, writesTo, hw]

theorem writesTo_append (pin : Pin) (a b : List Event) :
    writesTo pin (a ++ b) = writesTo pin a ++ writesTo pin b := by
  induction a with
  | nil => rfl
  | cons e a ih =>
    cases e with
    | digitalWrite p level =>
      by_cases hpin : p = pin <;> simp [writesTo, hpin, ih]
    | print text => simpa [writesTo] using ih
    | println text => simpa [writesTo] using ih

theorem run_cons (s : State) (k : Tick) (ks : List Tick) :
    (run s (k :: ks)).1 = (run (loop k s).1 ks).1 ∧
    (run s (k :: ks)).2 = (loop k s).2 ++ (run (loop k s).1 ks).2 := ⟨rfl, rfl⟩

theorem heater_state_aux (d h w : Bool) (rest : List Bool) :
    (h || d || !rest.isEmpty) = (h || !((if d then [w] else []) ++ rest).isEmpty) := by
  cases d <;> cases h <;> cases rest <;> simp

theorem heater_writes_aux (d h w : Bool) (rest : List Bool) :
    ((if d && !h then [ON_STATE] else []) ++
        if !rest.isEmpty && !(h || d) then [ON_STATE] else [])
      = if !((if d then [w] else []) ++ rest).isEmpty && !h then [ON_STATE] else [] := by
  cases d <;> cases h <;> cases rest <;> simp

/-- Passes that all read water-ok, from a state with pump, alert, indicator intent and LED
off: they stay off, no pump or LED write is ever emitted, and the heater is on at the end
exactly if it was on before or a scan has run, with one `ON_STATE` write if it was off. -/
theorem run_ok (ks : List Tick) : ∀ s : State,
    (∀ k ∈ ks, isWaterLevelOk k.raw = true) →
    s.pumpOn = false → s.gallonEmpty = false → s.waterEmptyLedShouldBeActive = false →
    s.ledWaterEmptyState = false →
    ((run s ks).1.pumpOn = false ∧ (run s ks).1.gallonEmpty = false ∧
      (run s ks).1.waterEmptyLedShouldBeActive = false ∧
      (run s ks).1.ledWaterEmptyState = false) ∧
    (run s ks).1.lastHeaterState = (s.lastHeaterState || !(scanReadings s ks).isEmpty) ∧
    writesTo Pin.RELAY_PUMP_PIN (run s ks).2 = [] ∧
    writesTo Pin.WATER_EMPTY_LED_PIN (run s ks).2 = [] ∧
    writesTo Pin.BUILTIN_LED_PIN (run s ks).2 = [] ∧
    writesTo Pin.RELAY_HEATER_PIN (run s ks).2
      = (if !(scanReadings s ks).isEmpty && !s.lastHeaterState then [ON_STATE] else []) := by
  induction ks with
  | nil =>
    intro s _ hp hg hi hl
    refine ⟨⟨hp, hg, hi, hl⟩, ?_, rfl, rfl, rfl, ?_⟩
    · show s.lastHeaterState = _
      simp [scanReadings]
    · simp [scanReadings, run, runWith, writesTo]
  | cons k ks ih =>
    intro s hok hp hg hi hl
    obtain ⟨⟨hp1, hg1, hi1, hl1⟩, hh1, wp1, wl1, wb1, wh1⟩ :=
      loop_ok_step k s (hok k (List.mem_cons_self _ _)) hp hg hi hl
    obtain ⟨hq, hh, wp, wl, wb, wh⟩ :=
      ih (loop k s).1 (fun x hx => hok x (List.mem_cons_of_mem _ hx)) hp1 hg1 hi1 hl1
    rw [(run_cons s k ks).1, (run_cons s k ks).2]
    simp only [writesTo_append, wp1, wp, wl1, wl, wb1, wb, wh1, wh, hh, hh1, scanReadings]
    refine ⟨hq, ?_, rfl, rfl, rfl, ?_⟩
    · exact heater_state_aux _ _ _ _
    · exact heater_writes_aux _ _ _ _

/-- C9: from the boot state, through `loop()` passes at any clock values whose sensor
readings are all water-ok, after every pass (every prefix `pre` of the passes): the pump is
off and no pump relay write has been emitted; the heater is on exactly if a scan has run,
and the heater relay has been written once, with `ON_STATE`, by then; the LED state is off
and no indicator write has been emitted. -/
theorem boot_water_ok (raw0 : Int) (ks : List Tick)
    (hok : ∀ k ∈ ks, isWaterLevelOk k.raw = true) :
    ∀ pre : List Tick, pre <+: ks →
      (run (boot raw0) pre).1.pumpOn = false ∧
      writesTo Pin.RELAY_PUMP_PIN (run (boot raw0) pre).2 = [] ∧
      ((run (boot raw0) pre).1.lastHeaterState = true ↔ scanReadings (boot raw0) pre ≠ []) ∧
      writesTo Pin.RELAY_HEATER_PIN (run (boot raw0) pre).2
        = (if scanReadings (boot raw0) pre = [] then [] else [ON_STATE]) ∧
      (run (boot raw0) pre).1.ledWaterEmptyState = false ∧
      (run (boot raw0) pre).1.waterEmptyLedShouldBeActive = false ∧
      writesTo Pin.WATER_EMPTY_LED_PIN (run (boot raw0) pre).2 = [] ∧
      writesTo Pin.BUILTIN_LED_PIN (run (boot raw0) pre).2 = [] := by
  intro pre hpre
  obtain ⟨⟨hp, -, hi, hl⟩, hh, wp, wl, wb, wh⟩ :=
    run_ok pre (boot raw0) (fun x hx => hok x (hpre.subset hx)) rfl rfl rfl rfl
  refine ⟨hp, wp, ?_, ?_, hl, hi, wl, wb⟩
  · rw [hh]
    cases hr : scanReadings (boot raw0) pre <;> simp [boot, setup]
  · rw [wh]
    cases hr : scanReadings (boot raw0) pre <;> simp [boot, setup]

/-- Witness for C9: two passes after boot that read water-ok, at 50 ms (no scan due) and at
100 ms (the first scan): the heater is on after them. -/
theorem boot_water_ok_witness :
    (∀ k ∈ [Tick.mk 50 LOW 50, Tick.mk 100 LOW 100], isWaterLevelOk k.raw = true) ∧
    (run (boot LOW) [Tick.mk 50 LOW 50]).1.lastHeaterState = false ∧
    (run (boot LOW) [Tick.mk 50 LOW 50, Tick.mk 100 LOW 100]).1.lastHeaterState = true ∧
    writesTo Pin.RELAY_PUMP_PIN
      (run (boot LOW) [Tick.mk 50 LOW 50, Tick.mk 100 LOW 100]).2 = [] :=
  ⟨by decide, by decide, by decide,
    (boot_water_ok LOW [Tick.mk 50 LOW 50, Tick.mk 100 LOW 100] (by decide)
      [Tick.mk 50 LOW 50, Tick.mk 100 LOW 100] (List.prefix_refl _)).2.1⟩

/-! ## The alert flag is sticky -/

/-- C10: after every scan, from every state, `gallonEmpty` is true exactly if the scan read
water-low and either `gallonEmpty` was true before or the timer, as lines 200-226 of this
scan left it, is active with `now - gallonEmptyDetectStartMs` (modulo `2 ^ 32`) above
300000. So it goes from false to true only by timer expiry, from true to false only in a
scan that read water-ok, and a `loop()` pass without scan leaves it unchanged. -/
theorem gallonEmpty_sticky (k : Tick) (s : State) :
    ((scan k s).1.gallonEmpty = true ↔
      isWaterLevelOk k.raw = false ∧
      (s.gallonEmpty = true ∨
        ((timerStateUpdate (isWaterLevelOk k.raw) k.now
            (logWaterChange (isWaterLevelOk k.raw) { s with lastScanMs := k.now }).1
          ).1.gallonEmptyDetectActive = true ∧
         sub32 k.now
          (timerStateUpdate (isWaterLevelOk k.raw) k.now
            (logWaterChange (isWaterLevelOk k.raw) { s with lastScanMs := k.now }).1
          ).1.gallonEmptyDetectStartMs > GALLON_EMPTY_DETECT_MS))) ∧
    (s.gallonEmpty = false → (scan k s).1.gallonEmpty = true →
      s.gallonEmptyDetectActive = true ∧
      sub32 k.now s.gallonEmptyDetectStartMs > GALLON_EMPTY_DETECT_MS) ∧
    (s.gallonEmpty = true → (scan k s).1.gallonEmpty = false →
      isWaterLevelOk k.raw = true) ∧
    (scanDue k s = false → (loop k s).1.gallonEmpty = s.gallonEmpty) ∧
    (scanDue k s = true → (loop k s).1.gallonEmpty = (scan k s).1.gallonEmpty) := by
  refine ⟨?_, fun hg h => (scan_detect k s hg h).2, fun hg h => ?_,
    loop_not_due_gallonEmpty k s, loop_due_gallonEmpty k s⟩
  · rw [scan_fst]
    simp only [timerStateUpdate_fst, logWaterChange_fst, scanExpires]
    cases isWaterLevelOk k.raw <;> cases s.gallonEmpty <;> cases s.pumpOn <;> simp
  · rw [scan_fst] at h
    cases hw : isWaterLevelOk k.raw
    · simp [hw, hg] at h
    · rfl

/-! ## Level interpreter -/

/-- C18: on every raw reading in {`LOW`, `HIGH`}, `isWaterLevelOk` returns `raw == LOW` when
the polarity is active-low and `raw == HIGH` otherwise; with the configured
`SENSOR_ACTIVE_LOW = true` it returns true for `LOW` and false for `HIGH`; and the two
polarities give opposite answers on the reading. -/
theorem isWaterLevelOk_polarity (raw : Int) (h : raw = LOW ∨ raw = HIGH) :
    isWaterLevelOkWith true raw = (raw == LOW) ∧
    isWaterLevelOkWith false raw = (raw == HIGH) ∧
    SENSOR_ACTIVE_LOW = true ∧
    isWaterLevelOk raw = (raw == LOW) ∧
    isWaterLevelOk LOW = true ∧ isWaterLevelOk HIGH = false ∧
    isWaterLevelOkWith true raw = !isWaterLevelOkWith false raw := by
  refine ⟨rfl, rfl, rfl, rfl, rfl, rfl, ?_⟩
  rcases h with rfl | rfl <;> rfl

/-- Witness for C18: the reading `HIGH`. -/
theorem isWaterLevelOk_polarity_witness :
    (HIGH = LOW ∨ HIGH = HIGH) ∧ isWaterLevelOk HIGH = (HIGH == LOW) ∧
    isWaterLevelOkWith true HIGH = !isWaterLevelOkWith false HIGH :=
  ⟨Or.inr rfl, (isWaterLevelOk_polarity HIGH (Or.inr rfl)).2.2.2.1,
    (isWaterLevelOk_polarity HIGH (Or.inr rfl)).2.2.2.2.2.2⟩

/-! ## Indicator blinker -/

/-- C15: `updateWaterEmptyLed(true, now)` toggles `ledWaterEmptyState`, sets
`lastLedBlinkMs = now` and writes the new LED value (to both indicator pins) exactly when
`now - lastLedBlinkMs` (modulo `2 ^ 32`) is at least 500; otherwise it changes no state and
emits nothing. -/
theorem blinker_active_step (s : State) (now : Nat) :
    LED_BLINK_INTERVAL_MS = 500 ∧
    updateWaterEmptyLed true now s =
      (if sub32 now s.lastLedBlinkMs ≥ 500 then
        ({ s with lastLedBlinkMs := now, ledWaterEmptyState := !s.ledWaterEmptyState },
          [Event.digitalWrite Pin.WATER_EMPTY_LED_PIN
              (if !s.ledWaterEmptyState then ON_STATE else OFF_STATE),
           Event.digitalWrite Pin.BUILTIN_LED_PIN
              (if !s.ledWaterEmptyState then ON_STATE else OFF_STATE)])
       else (s, [])) ∧
    ((updateWaterEmptyLed true now s).1.ledWaterEmptyState = (!s.ledWaterEmptyState) ↔
      sub32 now s.lastLedBlinkMs ≥ 500) ∧
    ((updateWaterEmptyLed true now s).2 ≠ [] ↔ sub32 now s.lastLedBlinkMs ≥ 500) := by
  refine ⟨rfl, ?_, ?_, ?_⟩
  · simp only [updateWaterEmptyLed, setWaterEmptyLed, LED_BLINK_INTERVAL_MS, if_true]
  · by_cases h : sub32 now s.lastLedBlinkMs ≥ 500
    · simp [updateWaterEmptyLed, LED_BLINK_INTERVAL_MS, h]
    · simp only [updateWaterEmptyLed, LED_BLINK_INTERVAL_MS, if_true, h, if_false, iff_false]
      cases s.ledWaterEmptyState <;> simp
  · by_cases h : sub32 now s.lastLedBlinkMs ≥ 500
    · simp [updateWaterEmptyLed, setWaterEmptyLed, LED_BLINK_INTERVAL_MS, h]
    · simp [updateWaterEmptyLed, LED_BLINK_INTERVAL_MS, h]

/-- One blinker call with the intent off: state and events in closed form. -/
theorem updateWaterEmptyLed_false (s : State) (now : Nat) :
    updateWaterEmptyLed false now s =
      (if s.ledWaterEmptyState then
        ({ s with ledWaterEmptyState := false },
          [Event.digitalWrite Pin.WATER_EMPTY_LED_PIN OFF_STATE,
           Event.digitalWrite Pin.BUILTIN_LED_PIN OFF_STATE])
       else (s, [])) := by
  cases h : s.ledWaterEmptyState <;> simp [updateWaterEmptyLed, setWaterEmptyLed, h]

/-- Consecutive blinker calls with the intent off, from a state with the LED off, change
nothing and emit nothing. -/
theorem blinkRun_false_off (nows : List Nat) : ∀ s : State, s.ledWaterEmptyState = false →
    blinkRun false s nows = (s, []) := by
  induction nows with
  | nil => intro s _; rfl
  | cons now nows ih =>
    intro s h
    have h1 : updateWaterEmptyLed false now s = (s, []) := by
      rw [updateWaterEmptyLed_false, h]; rfl
    simp [blinkRun, h1, andThen, ih s h]

/-- C16 (as amended): `updateWaterEmptyLed(false, now)` with `ledWaterEmptyState` true sets
it to false and turns the indicator off with one `setWaterEmptyLed(false)` call, that is one
`OFF_STATE` write to each of the two indicator pins; with `ledWaterEmptyState` false it
changes no state and emits nothing. Hence a run of consecutive calls with the intent off
emits at most one off write to each indicator pin in total, and leaves the LED off. -/
theorem blinker_inactive_step (s : State) (now : Nat) (nows : List Nat) :
    updateWaterEmptyLed false now s =
      (if s.ledWaterEmptyState then
        ({ s with ledWaterEmptyState := false },
          [Event.digitalWrite Pin.WATER_EMPTY_LED_PIN OFF_STATE,
           Event.digitalWrite Pin.BUILTIN_LED_PIN OFF_STATE])
       else (s, [])) ∧
    (blinkRun false s (now :: nows)).2 =
      (if s.ledWaterEmptyState then
        [Event.digitalWrite Pin.WATER_EMPTY_LED_PIN OFF_STATE,
         Event.digitalWrite Pin.BUILTIN_LED_PIN OFF_STATE]
       else []) ∧
    (blinkRun false s (now :: nows)).1.ledWaterEmptyState = false ∧
    (writesTo Pin.WATER_EMPTY_LED_PIN (blinkRun false s (now :: nows)).2).length ≤ 1 ∧
    (writesTo Pin.BUILTIN_LED_PIN (blinkRun false s (now :: nows)).2).length ≤ 1 := by
  have hrun : blinkRun false s (now :: nows)
      = ((updateWaterEmptyLed false now s).1, (updateWaterEmptyLed false now s).2) := by
    have hoff : (updateWaterEmptyLed false now s).1.ledWaterEmptyState = false := by
      rw [updateWaterEmptyLed_false]
      cases h : s.ledWaterEmptyState <;> simp [h]
    simp [blinkRun, andThen, blinkRun_false_off nows _ hoff]
  refine ⟨updateWaterEmptyLed_false s now, ?_, ?_, ?_, ?_⟩ <;>
    rw [hrun, updateWaterEmptyLed_false] <;>
    cases h : s.ledWaterEmptyState <;> simp [h, writesTo]

/-- C16 as stated fails: with the LED on, `updateWaterEmptyLed(false, now)` performs two
hardware writes (`WATER_EMPTY_LED_PIN` and `BUILTIN_LED_PIN`), not a single one. -/
theorem blinker_off_two_writes_counterexample :
    ({ initState with ledWaterEmptyState := true } : State).ledWaterEmptyState = true ∧
    (updateWaterEmptyLed false 0 { initState with ledWaterEmptyState := true }).2 =
      [Event.digitalWrite Pin.WATER_EMPTY_LED_PIN OFF_STATE,
       Event.digitalWrite Pin.BUILTIN_LED_PIN OFF_STATE] ∧
    hardwareWrites
      (updateWaterEmptyLed false 0 { initState with ledWaterEmptyState := true }).2 = 2 ∧
    ¬ (∀ (s : State) (now : Nat), s.ledWaterEmptyState = true →
        hardwareWrites (updateWaterEmptyLed false now s).2 = 1) := by
  refine ⟨rfl, by decide, by decide, fun h => ?_⟩
  have h1 := h { initState with ledWaterEmptyState := true } 0 rfl
  revert h1
  decide

/-! ## Scheduler -/

/-- The blinker writes to no relay. -/
theorem updateWaterEmptyLed_relay_writes (b : Bool) (now : Nat) (s : State) :
    writesTo Pin.RELAY_PUMP_PIN (updateWaterEmptyLed b now s).2 = [] ∧
    writesTo Pin.RELAY_HEATER_PIN (updateWaterEmptyLed b now s).2 = [] := by
  unfold updateWaterEmptyLed
  split_ifs <;> simp [setWaterEmptyLed, writesTo]

/-- A pass in which no scan is due is the blinker call alone. -/
theorem loop_of_not_due (k : Tick) (s : State) (h : scanDue k s = false) :
    loop k s = updateWaterEmptyLed s.waterEmptyLedShouldBeActive k.now s := by
  simp [loop, andThen, h]

/-- A pass in which a scan is due is the scan followed by the blinker call. -/
theorem loop_of_due (k : Tick) (s : State) (h : scanDue k s = true) :
    loop k s = andThen (scan k s)
      (fun s1 => updateWaterEmptyLed s1.waterEmptyLedShouldBeActive k.now s1) := by
  simp [loop, h]

/-- C14: a `loop()` pass runs the scan sequence exactly when `now - lastScanMs` (modulo
`2 ^ 32`) is at least 100; it then runs it once, before the blinker, and `lastScanMs = now`
afterwards. If no scan is due the pass is the blinker call alone: `lastScanMs`, `pumpOn`,
the heater state, the timer (active and start), `gallonEmpty` and the indicator intent are
unchanged and no pump or heater write is emitted. -/
theorem scheduler_pass (k : Tick) (s : State) :
    SCAN_INTERVAL_MS = 100 ∧
    (scanDue k s = true ↔ sub32 k.now s.lastScanMs ≥ 100) ∧
    (scanDue k s = true →
      loop k s = andThen (scan k s)
        (fun s1 => updateWaterEmptyLed s1.waterEmptyLedShouldBeActive k.now s1) ∧
      (loop k s).1.lastScanMs = k.now) ∧
    (scanDue k s = false →
      loop k s = updateWaterEmptyLed s.waterEmptyLedShouldBeActive k.now s ∧
      (loop k s).1.lastScanMs = s.lastScanMs ∧
      (loop k s).1.pumpOn = s.pumpOn ∧
      (loop k s).1.lastHeaterState = s.lastHeaterState ∧
      (loop k s).1.gallonEmptyDetectActive = s.gallonEmptyDetectActive ∧
      (loop k s).1.gallonEmptyDetectStartMs = s.gallonEmptyDetectStartMs ∧
      (loop k s).1.gallonEmpty = s.gallonEmpty ∧
      (loop k s).1.waterEmptyLedShouldBeActive = s.waterEmptyLedShouldBeActive ∧
      (loop k s).1.lastWaterOkState = s.lastWaterOkState ∧
      (loop k s).1.pumpStartMs = s.pumpStartMs ∧
      writesTo Pin.RELAY_PUMP_PIN (loop k s).2 = [] ∧
      writesTo Pin.RELAY_HEATER_PIN (loop k s).2 = []) := by
  refine ⟨rfl, ?_, fun h => ⟨loop_of_due k s h, ?_⟩, fun h => ?_⟩
  · simp [scanDue, SCAN_INTERVAL_MS]
  · rw [(loop_frame k s).2.2.2.2.2.2.1, h, if_pos rfl, scan_fst]
  · obtain ⟨f1, f2, f3, f4, f5, f6, f7, f8, f9⟩ := loop_frame k s
    rw [h, if_neg Bool.false_ne_true] at f1 f2 f3 f4 f5 f6 f7 f8 f9
    refine ⟨loop_of_not_due k s h, f7, f1, f2, f4, f5, f3, f6, f8, f9, ?_, ?_⟩
    · rw [loop_of_not_due k s h]
      exact (updateWaterEmptyLed_relay_writes _ _ _).1
    · rw [loop_of_not_due k s h]
      exact (updateWaterEmptyLed_relay_writes _ _ _).2

/-! ## Invariants of the states reached from boot -/

theorem bootInv_boot (raw0 : Int) : BootInv (boot raw0) := by
  simp [BootInv, boot, setup, initState]

/-- A pass keeps the invariant of reachable states. -/
theorem loop_bootInv (k : Tick) (s : State) (h : BootInv s) : BootInv (loop k s).1 := by
  obtain ⟨hi, hg, ha, hb⟩ := h
  obtain ⟨f1, f2, f3, f4, -, f6, -⟩ := loop_frame k s
  unfold BootInv
  rw [f1, f2, f3, f4, f6]
  cases hd : scanDue k s
  · simp only [Bool.false_eq_true, if_false]
    exact ⟨hi, hg, ha, hb⟩
  · simp only [if_true, scan_fst]
    cases hw : isWaterLevelOk k.raw
    · cases hx : scanExpires k s
      · cases hge : s.gallonEmpty
        · cases hp : s.pumpOn <;> simp
        · have := (hg hge).1
          simp [this]
      · simp
    · simp [scanExpires_of_ok k s hw]

theorem run_bootInv (ks : List Tick) : ∀ s : State, BootInv s → BootInv (run s ks).1 := by
  induction ks with
  | nil => intro s h; exact h
  | cons k ks ih => intro s h; exact ih _ (loop_bootInv k s h)

/-- C19: in every state reached from the boot state by `loop()` passes, the indicator intent
`waterEmptyLedShouldBeActive` equals `gallonEmpty`. -/
theorem reachable_intent_eq_gallonEmpty (raw0 : Int) (ks : List Tick) :
    (run (boot raw0) ks).1.waterEmptyLedShouldBeActive = (run (boot raw0) ks).1.gallonEmpty ∧
    (run initState ks).1.waterEmptyLedShouldBeActive = (run initState ks).1.gallonEmpty :=
  ⟨(run_bootInv ks _ (bootInv_boot raw0)).1, (run_bootInv ks _ (bootInv_boot HIGH)).1⟩

/-- Timer active after the passes `ks` from `s`: either the most recent scan read water-low,
or no scan ran and the timer was already active in `s`. -/
theorem run_active_low (ks : List Tick) : ∀ s : State,
    (run s ks).1.gallonEmptyDetectActive = true →
      (scanReadings s ks).getLast? = some false ∨
      (scanReadings s ks = [] ∧ s.gallonEmptyDetectActive = true) := by
  induction ks with
  | nil => intro s h; exact Or.inr ⟨rfl, h⟩
  | cons k ks ih =>
    intro s h
    have h1 : (run (loop k s).1 ks).1.gallonEmptyDetectActive = true := h
    rcases ih _ h1 with hl | ⟨hnil, hh⟩
    · left
      cases hr : scanReadings (loop k s).1 ks with
      | nil => rw [hr] at hl; cases hl
      | cons b bs =>
        rw [hr] at hl
        simp only [scanReadings, hr]
        rw [List.getLast?_append_of_ne_nil _ (by simp), hl]
    · have hf := (loop_frame k s).2.2.2.1
      rw [hf] at hh
      by_cases hd : scanDue k s = true
      · left
        simp only [hd, if_true] at hh
        have hw := (scan_active_after k s hh).1
        simp [scanReadings, hnil, hd, hw]
      · right
        simp only [hd] at hh
        simp [scanReadings, hnil, hd]
        simpa using hh

/-- C11: in every state reached from the boot state by `loop()` passes, if the empty-gallon
timer is active then the pump is on, a scan has run and the most recent scan read
water-low. -/
theorem reachable_timer_active (raw0 : Int) (ks : List Tick)
    (h : (run (boot raw0) ks).1.gallonEmptyDetectActive = true) :
    (run (boot raw0) ks).1.pumpOn = true ∧
    (scanReadings (boot raw0) ks).getLast? = some false := by
  refine ⟨(run_bootInv ks _ (bootInv_boot raw0)).2.2.1 h, ?_⟩
  rcases run_active_low ks _ h with hl | ⟨-, hh⟩
  · exact hl
  · simp [boot, setup, initState] at hh

/-- Witness for C11: from boot, low scans at 100 ms (pump on) and 200 ms (timer armed). -/
theorem reachable_timer_active_witness :
    (run (boot HIGH) [Tick.mk 100 HIGH 100, Tick.mk 200 HIGH 200]).1.gallonEmptyDetectActive
      = true ∧
    (run (boot HIGH) [Tick.mk 100 HIGH 100, Tick.mk 200 HIGH 200]).1.pumpOn = true ∧
    (scanReadings (boot HIGH) [Tick.mk 100 HIGH 100, Tick.mk 200 HIGH 200]).getLast?
      = some false :=
  ⟨by decide,
    reachable_timer_active HIGH [Tick.mk 100 HIGH 100, Tick.mk 200 HIGH 200] (by decide)⟩

/-! ## The alert is one-shot -/

/-- A latched alert, with the indicator intent, survives every scan that reads low. -/
theorem scan_alerted_intent (k : Tick) (s : State) (h : Alerted s)
    (hw : isWaterLevelOk k.raw = false) :
    Alerted (scan k s).1 ∧ (scan k s).1.waterEmptyLedShouldBeActive = true := by
  refine ⟨scan_alerted_keep k s h hw, ?_⟩
  simp [scan_fst, h.1, hw]

/-- A latched alert, with the indicator intent, survives every pass that reads low. -/
theorem loop_alerted_intent (k : Tick) (s : State) (h : Alerted s)
    (hi : s.waterEmptyLedShouldBeActive = true) (hw : isWaterLevelOk k.raw = false) :
    Alerted (loop k s).1 ∧ (loop k s).1.waterEmptyLedShouldBeActive = true := by
  obtain ⟨f1, f2, f3, f4, -, f6, -⟩ := loop_frame k s
  unfold Alerted
  rw [f1, f2, f3, f4, f6]
  cases hd : scanDue k s
  · simp only [Bool.false_eq_true, if_false]
    exact ⟨h, hi⟩
  · simp only [if_true]
    exact scan_alerted_intent k s h hw

theorem run_alerted_intent (ks : List Tick) : ∀ s : State, Alerted s →
    s.waterEmptyLedShouldBeActive = true → (∀ k ∈ ks, isWaterLevelOk k.raw = false) →
    Alerted (run s ks).1 ∧ (run s ks).1.waterEmptyLedShouldBeActive = true := by
  induction ks with
  | nil => intro s h hi _; exact ⟨h, hi⟩
  | cons k ks ih =>
    intro s h hi hl
    obtain ⟨h1, hi1⟩ := loop_alerted_intent k s h hi (hl k (List.mem_cons_self _ _))
    exact ih _ h1 hi1 (fun x hx => hl x (List.mem_cons_of_mem _ hx))

theorem runScans_alerted_intent (ks : List Tick) : ∀ s : State, Alerted s →
    s.waterEmptyLedShouldBeActive = true → (∀ k ∈ ks, isWaterLevelOk k.raw = false) →
    Alerted (runScans s ks).1 ∧ (runScans s ks).1.waterEmptyLedShouldBeActive = true := by
  induction ks with
  | nil => intro s h hi _; exact ⟨h, hi⟩
  | cons k ks ih =>
    intro s h hi hl
    obtain ⟨h1, hi1⟩ := scan_alerted_intent k s h (hl k (List.mem_cons_self _ _))
    exact ih _ h1 hi1 (fun x hx => hl x (List.mem_cons_of_mem _ hx))

/-- C12: in every state reached from the boot state the timer is not active while
`gallonEmpty` is true. If `gallonEmpty` is true in such a state, then through every
following run of passes (or of scans) that all read water-low, `gallonEmpty` stays true, the
timer stays inactive, pump and heater stay off and the indicator intent stays true; the
first scan that then reads water-ok clears `gallonEmpty`. -/
theorem one_shot_alert (raw0 : Int) (ks more : List Tick)
    (hlow : ∀ k ∈ more, isWaterLevelOk k.raw = false) :
    ¬ ((run (boot raw0) ks).1.gallonEmptyDetectActive = true ∧
        (run (boot raw0) ks).1.gallonEmpty = true) ∧
    ((run (boot raw0) ks).1.gallonEmpty = true →
      ((run (run (boot raw0) ks).1 more).1.gallonEmpty = true ∧
        (run (run (boot raw0) ks).1 more).1.gallonEmptyDetectActive = false ∧
        (run (run (boot raw0) ks).1 more).1.pumpOn = false ∧
        (run (run (boot raw0) ks).1 more).1.lastHeaterState = false ∧
        (run (run (boot raw0) ks).1 more).1.waterEmptyLedShouldBeActive = true) ∧
      ((runScans (run (boot raw0) ks).1 more).1.gallonEmpty = true ∧
        (runScans (run (boot raw0) ks).1 more).1.gallonEmptyDetectActive = false ∧
        (runScans (run (boot raw0) ks).1 more).1.pumpOn = false ∧
        (runScans (run (boot raw0) ks).1 more).1.lastHeaterState = false ∧
        (runScans (run (boot raw0) ks).1 more).1.waterEmptyLedShouldBeActive = true) ∧
      (∀ k : Tick, isWaterLevelOk k.raw = true →
        (scan k (runScans (run (boot raw0) ks).1 more).1).1.gallonEmpty = false)) := by
  obtain ⟨hi, hg, -, -⟩ := run_bootInv ks _ (bootInv_boot raw0)
  refine ⟨fun ⟨ha, hge⟩ => ?_, fun hge => ?_⟩
  · rw [(hg hge).2.2] at ha
    cases ha
  · have hal : Alerted (run (boot raw0) ks).1 := ⟨hge, (hg hge).2.2, (hg hge).1, (hg hge).2.1⟩
    have hint : (run (boot raw0) ks).1.waterEmptyLedShouldBeActive = true := by rw [hi, hge]
    obtain ⟨⟨a1, a2, a3, a4⟩, a5⟩ := run_alerted_intent more _ hal hint hlow
    obtain ⟨⟨b1, b2, b3, b4⟩, b5⟩ := runScans_alerted_intent more _ hal hint hlow
    exact ⟨⟨a1, a2, a3, a4, a5⟩, ⟨b1, b2, b3, b4, b5⟩,
      fun k hk => (scan_ok_clears k _ hk).1⟩

/-- Witness for C12: from boot, low scans at 100 ms (pump on), 200 ms (timer armed) and
300300 ms (alert), then one more low pass at 300400 ms. -/
theorem one_shot_alert_witness :
    (∀ k ∈ [Tick.mk 300400 HIGH 300400], isWaterLevelOk k.raw = false) ∧
    (run (boot HIGH)
      [Tick.mk 100 HIGH 100, Tick.mk 200 HIGH 200, Tick.mk 300300 HIGH 300300]
      ).1.gallonEmpty = true ∧
    (run (run (boot HIGH)
      [Tick.mk 100 HIGH 100, Tick.mk 200 HIGH 200, Tick.mk 300300 HIGH 300300]).1
      [Tick.mk 300400 HIGH 300400]).1.pumpOn = false :=
  ⟨by decide, by decide,
    ((one_shot_alert HIGH
      [Tick.mk 100 HIGH 100, Tick.mk 200 HIGH 200, Tick.mk 300300 HIGH 300300]
      [Tick.mk 300400 HIGH 300400] (by decide)).2 (by decide)).1.2.2.1⟩

/-! ## Clock wraparound -/

/-- C13: with 32-bit clock values, if the timer is active with start `T mod 2 ^ 32` and the
scan runs at real time `T + d`, `d < 2 ^ 32` (clock value `(T + d) mod 2 ^ 32`), the
unsigned difference `now - start` is `d`, wrapped or not. So the expiry test of lines
230-236 fires exactly when `d > 300000`, and a scan with `d ≤ 300000` does not set
`gallonEmpty`. -/
theorem clock_wraparound (T d : Nat) (hd : d < U32) (s : State) (k : Tick)
    (hact : s.gallonEmptyDetectActive = true)
    (hst : s.gallonEmptyDetectStartMs = millis T) (hnow : k.now = millis (T + d)) :
    sub32 k.now s.gallonEmptyDetectStartMs = d ∧
    ((timerExpiry k.now k.pumpMs s).2 ≠ [] ↔ d > GALLON_EMPTY_DETECT_MS) ∧
    ((timerExpiry k.now k.pumpMs s).1.gallonEmpty = true ↔
      (s.gallonEmpty = true ∨ d > GALLON_EMPTY_DETECT_MS)) ∧
    (s.gallonEmpty = false → d ≤ GALLON_EMPTY_DETECT_MS →
      (scan k s).1.gallonEmpty = false) ∧
    (s.gallonEmpty = false →
      ((scan k s).1.gallonEmpty = true ↔
        (s.pumpOn = true ∧ isWaterLevelOk k.raw = false ∧ d > GALLON_EMPTY_DETECT_MS))) := by
  have hsub : sub32 k.now s.gallonEmptyDetectStartMs = d := by
    rw [hst, hnow]
    have := sub32_millis T (T + d) (Nat.le_add_right _ _) (by omega)
    rw [this]
    omega
  have hscan : s.gallonEmpty = false →
      ((scan k s).1.gallonEmpty = true ↔
        (s.pumpOn = true ∧ isWaterLevelOk k.raw = false ∧ d > GALLON_EMPTY_DETECT_MS)) := by
    intro hg
    rw [scan_fst]
    simp only [scanExpires, hact, hg]
    cases s.pumpOn <;> cases isWaterLevelOk k.raw <;> simp [hsub]
  refine ⟨hsub, ?_, ?_, fun hg hle => ?_, hscan⟩
  · unfold timerExpiry
    rw [hact, hsub]
    by_cases hx : d > GALLON_EMPTY_DETECT_MS
    · simp [hx, andThen]
    · simp [hx]
  · rw [timerExpiry_fst, hact, hsub]
    by_cases hx : d > GALLON_EMPTY_DETECT_MS
    · simp [hx]
    · simp [hx]
  · cases hge : (scan k s).1.gallonEmpty
    · rfl
    · exact absurd ((hscan hg).mp hge).2.2 (Nat.not_lt.mpr hle)

/-- Witness for C13: timer started 1000 ms before the counter wraps, scan 301000 ms later
(after the wrap): the elapsed time is 301000 and the alert is raised. -/
theorem clock_wraparound_witness :
    (301000 < U32 ∧ millis (4294966296 + 301000) < millis 4294966296) ∧
    sub32 (millis (4294966296 + 301000)) (millis 4294966296) = 301000 ∧
    (scan (Tick.mk (millis (4294966296 + 301000)) HIGH 0)
      { initState with pumpOn := true, gallonEmptyDetectActive := true,
                       gallonEmptyDetectStartMs := millis 4294966296 }).1.gallonEmpty
      = true := by
  have h := clock_wraparound 4294966296 301000 (by norm_num [U32])
    { initState with pumpOn := true, gallonEmptyDetectActive := true,
                     gallonEmptyDetectStartMs := millis 4294966296 }
    (Tick.mk (millis (4294966296 + 301000)) HIGH 0) rfl rfl rfl
  exact ⟨by norm_num [U32, millis], h.1,
    (h.2.2.2.2 rfl).mpr ⟨rfl, rfl, by norm_num [GALLON_EMPTY_DETECT_MS]⟩⟩

/-! ## Relay writes of a scan -/

theorem setPump_writes (v : Bool) (ms : Nat) (s : State) :
    writesTo Pin.RELAY_PUMP_PIN (setPump v ms s).2
      = (if v = s.pumpOn then [] else [if v then ON_STATE else OFF_STATE]) ∧
    writesTo Pin.RELAY_HEATER_PIN (setPump v ms s).2 = [] := by
  cases v <;> cases h : s.pumpOn <;> simp [setPump, h, writesTo]

theorem setHeater_writes (v : Bool) (s : State) :
    writesTo Pin.RELAY_HEATER_PIN (setHeater v s).2
      = (if v = s.lastHeaterState then [] else [if v then ON_STATE else OFF_STATE]) ∧
    writesTo Pin.RELAY_PUMP_PIN (setHeater v s).2 = [] := by
  cases v <;> cases h : s.lastHeaterState <;> simp [setHeater, h, writesTo]

theorem logWaterChange_writes (pin : Pin) (w : Bool) (s : State) :
    writesTo pin (logWaterChange w s).2 = [] := by
  unfold logWaterChange
  split_ifs <;> simp [writesTo]

theorem timerStateUpdate_writes (pin : Pin) (w : Bool) (now : Nat) (s : State) :
    writesTo pin (timerStateUpdate w now s).2 = [] := by
  rcases s with ⟨ls, po, ps, lb, led, ge, lw, lh, gs, ga, wi⟩
  cases w <;> cases po <;> cases ga <;> cases ge <;>
    simp [timerStateUpdate, andThen, writesTo]

theorem timerExpiry_writes (now pumpMs : Nat) (s : State) :
    writesTo Pin.RELAY_PUMP_PIN (timerExpiry now pumpMs s).2
      = (if s.gallonEmptyDetectActive
            && decide (sub32 now s.gallonEmptyDetectStartMs > GALLON_EMPTY_DETECT_MS) then
          (if s.pumpOn then [OFF_STATE] else [])
         else []) ∧
    writesTo Pin.RELAY_HEATER_PIN (timerExpiry now pumpMs s).2
      = (if s.gallonEmptyDetectActive
            && decide (sub32 now s.gallonEmptyDetectStartMs > GALLON_EMPTY_DETECT_MS) then
          (if s.lastHeaterState then [OFF_STATE] else [])
         else []) := by
  rcases s with ⟨ls, po, ps, lb, led, ge, lw, lh, gs, ga, wi⟩
  by_cases hx : sub32 now gs > GALLON_EMPTY_DETECT_MS <;>
    cases ga <;> cases po <;> cases lh <;>
      simp [timerExpiry, hx, andThen, setPump, setHeater, writesTo]

theorem controlPolicy_writes (w : Bool) (pumpMs : Nat) (s : State) :
    writesTo Pin.RELAY_PUMP_PIN (controlPolicy w pumpMs s).2
      = (if (!s.gallonEmpty && !w) = s.pumpOn then []
         else [if !s.gallonEmpty && !w then ON_STATE else OFF_STATE]) ∧
    writesTo Pin.RELAY_HEATER_PIN (controlPolicy w pumpMs s).2
      = (if (!s.gallonEmpty && w) = s.lastHeaterState then []
         else [if !s.gallonEmpty && w then ON_STATE else OFF_STATE]) := by
  rcases s with ⟨ls, po, ps, lb, led, ge, lw, lh, gs, ga, wi⟩
  cases w <;> cases ge <;> cases po <;> cases lh <;>
    simp [controlPolicy, policyBranch, runBranch, andThen, setPump, setHeater, writesTo]

/-- The expiry test can only succeed with the pump on and the water low. -/
theorem scanExpires_imp (k : Tick) (s : State) (h : scanExpires k s = true) :
    s.pumpOn = true ∧ isWaterLevelOk k.raw = false := by
  simp only [scanExpires, Bool.and_eq_true] at h
  exact ⟨h.1.1, by simpa using h.1.2⟩

/-- Pump and heater state after the timer update of a scan. -/
theorem scanTimer_relays (k : Tick) (s : State) :
    (scanTimer k s).1.pumpOn = (s.pumpOn && !scanExpires k s) ∧
    (scanTimer k s).1.lastHeaterState = (s.lastHeaterState && !scanExpires k s) := by
  rcases s with ⟨ls, po, ps, lb, led, ge, lw, lh, gs, ga, wi⟩
  rw [scanTimer_fst, timerExpiry_fst]
  simp only [scanExpires]
  cases hw : isWaterLevelOk k.raw <;> cases po <;> cases ga <;> simp <;>
    split_ifs <;> simp_all

/-- The relay writes of a scan are those of the expiry test followed by those of the
control policy. -/
theorem scan_writes_split (pin : Pin) (k : Tick) (s : State) :
    writesTo pin (scan k s).2 =
      writesTo pin (timerExpiry k.now k.pumpMs
        { s with
          lastScanMs := k.now,
          lastWaterOkState := isWaterLevelOk k.raw,
          gallonEmpty := s.gallonEmpty && !isWaterLevelOk k.raw,
          gallonEmptyDetectActive := s.pumpOn && !isWaterLevelOk k.raw,
          gallonEmptyDetectStartMs :=
            if s.pumpOn && !isWaterLevelOk k.raw && !s.gallonEmptyDetectActive then k.now
            else s.gallonEmptyDetectStartMs }).2
      ++ writesTo pin (controlPolicy (isWaterLevelOk k.raw) k.pumpMs (scanTimer k s).1).2 := by
  simp only [scan, scanTimer, timerUpdate, andThen_snd, andThen_fst, writesTo_append,
    logWaterChange_writes, timerStateUpdate_writes, List.nil_append, logWaterChange_fst,
    timerStateUpdate_fst]

/-- The pump relay writes of a scan: none if the pump state is the same before and after,
one write of the new state otherwise. -/
theorem scan_pump_writes (k : Tick) (s : State) :
    writesTo Pin.RELAY_PUMP_PIN (scan k s).2 =
      (if (scan k s).1.pumpOn = s.pumpOn then []
       else [if (scan k s).1.pumpOn then ON_STATE else OFF_STATE]) := by
  rw [scan_writes_split, (timerExpiry_writes _ _ _).1, (controlPolicy_writes _ _ _).1,
    scanTimer_gallonEmpty, (scanTimer_relays k s).1, scan_fst]
  change ((if scanExpires k s = true then _ else _) ++ _) = _
  cases hx : scanExpires k s
  · cases isWaterLevelOk k.raw <;> cases s.pumpOn <;> cases s.gallonEmpty <;> simp
  · obtain ⟨hp, hw⟩ := scanExpires_imp k s hx
    simp [hp, hw]

/-- The heater relay writes of a scan: none if the heater state is the same before and
after, one write of the new state otherwise. -/
theorem scan_heater_writes (k : Tick) (s : State) :
    writesTo Pin.RELAY_HEATER_PIN (scan k s).2 =
      (if (scan k s).1.lastHeaterState = s.lastHeaterState then []
       else [if (scan k s).1.lastHeaterState then ON_STATE else OFF_STATE]) := by
  rw [scan_writes_split, (timerExpiry_writes _ _ _).2, (controlPolicy_writes _ _ _).2,
    scanTimer_gallonEmpty, (scanTimer_relays k s).2, scan_fst]
  change ((if scanExpires k s = true then _ else _) ++ _) = _
  cases hx : scanExpires k s
  · cases isWaterLevelOk k.raw <;> cases s.lastHeaterState <;> cases s.gallonEmpty <;> simp
  · obtain ⟨hp, hw⟩ := scanExpires_imp k s hx
    cases s.lastHeaterState <;> simp [hw]

/-- C20: every scan, from every state, emits at most one pump relay write and at most one
heater relay write, and it writes a relay exactly when the relay's stored state differs
between the start and the end of the scan (the write then carries the new state); so also
the detecting scan, which calls `setPump(false)` and `setHeater(false)` twice. -/
theorem scan_relay_writes (k : Tick) (s : State) :
    writesTo Pin.RELAY_PUMP_PIN (scan k s).2 =
      (if (scan k s).1.pumpOn = s.pumpOn then []
       else [if (scan k s).1.pumpOn then ON_STATE else OFF_STATE]) ∧
    writesTo Pin.RELAY_HEATER_PIN (scan k s).2 =
      (if (scan k s).1.lastHeaterState = s.lastHeaterState then []
       else [if (scan k s).1.lastHeaterState then ON_STATE else OFF_STATE]) ∧
    (writesTo Pin.RELAY_PUMP_PIN (scan k s).2).length ≤ 1 ∧
    (writesTo Pin.RELAY_HEATER_PIN (scan k s).2).length ≤ 1 ∧
    (writesTo Pin.RELAY_PUMP_PIN (scan k s).2 ≠ [] ↔ (scan k s).1.pumpOn ≠ s.pumpOn) ∧
    (writesTo Pin.RELAY_HEATER_PIN (scan k s).2 ≠ [] ↔
      (scan k s).1.lastHeaterState ≠ s.lastHeaterState) ∧
    (scanExpires k s = true →
      writesTo Pin.RELAY_PUMP_PIN (scan k s).2 = [OFF_STATE] ∧
      writesTo Pin.RELAY_HEATER_PIN (scan k s).2
        = (if s.lastHeaterState then [OFF_STATE] else [])) := by
  have hp := scan_pump_writes k s
  have hh := scan_heater_writes k s
  refine ⟨hp, hh, ?_, ?_, ?_, ?_, fun hx => ?_⟩
  · rw [hp]; split_ifs <;> simp
  · rw [hh]; split_ifs <;> simp
  · rw [hp]; split_ifs with h <;> simp [h]
  · rw [hh]; split_ifs with h <;> simp [h]
  · obtain ⟨hpo, hw⟩ := scanExpires_imp k s hx
    rw [hp, hh, scan_fst]
    simp only [hx, hw, hpo]
    cases s.lastHeaterState <;> simp

/-! ## Blink period -/

theorem loopWith_scanInterval (k : Tick) (s : State) : loopWith SCAN_INTERVAL_MS k s = loop k s :=
  rfl

/-- The scan part of a pass leaves the blinker's two variables alone. -/
theorem scanPart_led (interval : Nat) (k : Tick) (s : State) :
    (if scanDueWith interval k s then scan k s else (s, [])).1.ledWaterEmptyState
      = s.ledWaterEmptyState ∧
    (if scanDueWith interval k s then scan k s else (s, [])).1.lastLedBlinkMs
      = s.lastLedBlinkMs := by
  cases scanDueWith interval k s
  · exact ⟨rfl, rfl⟩
  · simp only [if_true, scan_fst, and_self]

/-- The blinker's variables after a pass in which the indicator intent is true: toggled, with
`lastLedBlinkMs = now`, if at least 500 ms have passed on the clock since `lastLedBlinkMs`,
unchanged if not; whatever the scan interval and `lastScanMs`. -/
theorem loopWith_led (interval : Nat) (k : Tick) (s : State)
    (h : (loopWith interval k s).1.waterEmptyLedShouldBeActive = true) :
    (loopWith interval k s).1.ledWaterEmptyState
      = (if sub32 k.now s.lastLedBlinkMs ≥ LED_BLINK_INTERVAL_MS then !s.ledWaterEmptyState
         else s.ledWaterEmptyState) ∧
    (loopWith interval k s).1.lastLedBlinkMs
      = (if sub32 k.now s.lastLedBlinkMs ≥ LED_BLINK_INTERVAL_MS then k.now
         else s.lastLedBlinkMs) := by
  have key : ∀ s1 : State, s1.ledWaterEmptyState = s.ledWaterEmptyState →
      s1.lastLedBlinkMs = s.lastLedBlinkMs →
      (updateWaterEmptyLed s1.waterEmptyLedShouldBeActive k.now s1).1.waterEmptyLedShouldBeActive
        = true →
      (updateWaterEmptyLed s1.waterEmptyLedShouldBeActive k.now s1).1.ledWaterEmptyState
        = (if sub32 k.now s.lastLedBlinkMs ≥ LED_BLINK_INTERVAL_MS then !s.ledWaterEmptyState
           else s.ledWaterEmptyState) ∧
      (updateWaterEmptyLed s1.waterEmptyLedShouldBeActive k.now s1).1.lastLedBlinkMs
        = (if sub32 k.now s.lastLedBlinkMs ≥ LED_BLINK_INTERVAL_MS then k.now
           else s.lastLedBlinkMs) := by
    intro s1 e1 e2 hi
    have hi1 : s1.waterEmptyLedShouldBeActive = true := by
      rw [updateWaterEmptyLed_frame] at hi
      exact hi
    rw [hi1]
    unfold updateWaterEmptyLed
    rw [if_pos rfl, e2]
    by_cases hc : sub32 k.now s.lastLedBlinkMs ≥ LED_BLINK_INTERVAL_MS
    · rw [if_pos hc, if_pos hc, if_pos hc]
      exact ⟨by rw [← e1], rfl⟩
    · rw [if_neg hc, if_neg hc, if_neg hc]
      exact ⟨e1, e2⟩
  obtain ⟨h1, h2⟩ := scanPart_led interval k s
  exact key _ h1 h2 h

/-- While the intent is held, the LED toggles of a run of passes are those of consecutive
blinker calls at the same times, which depend on `lastLedBlinkMs` and the times only. -/
theorem ledToggleTimes_eq (interval : Nat) (ks : List Tick) : ∀ s : State,
    intentHeld interval s ks →
    ledToggleTimes interval s ks
      = blinkToggles s.lastLedBlinkMs (ks.map (fun k => k.now)) := by
  induction ks with
  | nil => intro s _; rfl
  | cons k ks ih =>
    intro s h
    obtain ⟨hi, hrest⟩ := h
    obtain ⟨h1, h2⟩ := loopWith_led interval (atClock k) s hi
    simp only [ledToggleTimes, List.map_cons, blinkToggles]
    rw [ih _ hrest, h1, h2, atClock_now]
    by_cases hc : sub32 (millis k.now) s.lastLedBlinkMs ≥ LED_BLINK_INTERVAL_MS
    · simp only [hc, if_true]
      cases s.ledWaterEmptyState <;> simp
    · simp only [hc, if_false]
      cases s.ledWaterEmptyState <;> simp

/-- After a toggle at real time `a` and passes up to `p < a + 500`, the following toggles of
consecutive blinker calls are spaced by at least 500 and less than `500 + g` ms, if
consecutive calls are more than 0 and at most `g` ms apart. -/
theorem blinkToggles_chain (g : Nat) (hg : 500 + g ≤ U32) : ∀ (ts : List Nat) (a p : Nat),
    a ≤ p → p < a + 500 →
    List.Chain (fun x y : Nat => x < y ∧ y ≤ x + g) p ts →
    List.Chain (fun x y : Nat => x + 500 ≤ y ∧ y < x + 500 + g) a
      (blinkToggles (millis a) ts) := by
  intro ts
  induction ts with
  | nil => intro a p _ _ _; exact List.Chain.nil
  | cons t ts ih =>
    intro a p hap hpa hc
    obtain ⟨⟨hpt, htp⟩, hrest⟩ := List.chain_cons.mp hc
    have hsub : sub32 (millis t) (millis a) = t - a :=
      sub32_millis a t (by omega) (by omega)
    simp only [blinkToggles, hsub, LED_BLINK_INTERVAL_MS]
    by_cases h5 : t - a ≥ 500
    · rw [if_pos h5]
      exact List.Chain.cons ⟨by omega, by omega⟩ (ih t t (le_refl _) (by omega) hrest)
    · rw [if_neg h5]
      exact ih a t (by omega) (by omega) hrest

/-- Consecutive toggles of consecutive blinker calls, from any `lastLedBlinkMs`, are spaced
by at least 500 and less than `500 + g` ms. -/
theorem blinkToggles_chain_any (g : Nat) (hg : 500 + g ≤ U32) : ∀ (ts : List Nat) (last : Nat),
    List.Chain' (fun x y : Nat => x < y ∧ y ≤ x + g) ts →
    List.Chain' (fun x y : Nat => x + 500 ≤ y ∧ y < x + 500 + g) (blinkToggles last ts) := by
  intro ts
  induction ts with
  | nil => intro last _; exact List.chain'_nil
  | cons t ts ih =>
    intro last hc
    simp only [blinkToggles]
    split_ifs
    · exact blinkToggles_chain g hg ts t t (le_refl _) (by omega) hc
    · exact ih last hc.tail

/-- C17: through `loop()` passes at increasing real times, consecutive passes at most `g` ms
apart (`500 + g ≤ 2 ^ 32`, so that no elapsed time is ambiguous on the 32-bit clock), during
which the indicator intent is true, the time `d` between two consecutive LED toggles
satisfies `500 ≤ d < 500 + g`. The toggle times are the same for every scan interval, every
`lastScanMs` (every other state with the same `lastLedBlinkMs`) and all sensor readings for
which the intent is held over passes at the same times. -/
theorem blink_period (g : Nat) (hg : 500 + g ≤ U32) (interval : Nat) (s : State)
    (ks : List Tick)
    (hpass : List.Chain' (fun a b : Tick => a.now < b.now ∧ b.now ≤ a.now + g) ks)
    (hheld : intentHeld interval s ks) :
    List.Chain' (fun x y : Nat => x + 500 ≤ y ∧ y < x + 500 + g)
      (ledToggleTimes interval s ks) ∧
    (∀ (interval2 : Nat) (s2 : State) (ks2 : List Tick),
      s2.lastLedBlinkMs = s.lastLedBlinkMs →
      ks2.map (fun k => k.now) = ks.map (fun k => k.now) →
      intentHeld interval2 s2 ks2 →
      ledToggleTimes interval2 s2 ks2 = ledToggleTimes interval s ks) ∧
    (∀ (k : Tick) (s1 : State), loopWith SCAN_INTERVAL_MS k s1 = loop k s1) := by
  refine ⟨?_, fun interval2 s2 ks2 hl hk h2 => ?_, fun k s1 => rfl⟩
  · rw [ledToggleTimes_eq interval ks s hheld]
    exact blinkToggles_chain_any g hg _ _ ((List.chain'_map _).mpr hpass)
  · rw [ledToggleTimes_eq interval ks s hheld, ledToggleTimes_eq interval2 ks2 s2 h2, hl, hk]

/-- Witness for C17: alert latched, low passes at 1000, 1400 and 1800 ms (at most 400 ms
apart): the LED toggles at 1000 and 1800 ms, 800 ms apart. -/
theorem blink_period_witness :
    500 + 400 ≤ U32 ∧
    intentHeld 100 { initState with gallonEmpty := true, waterEmptyLedShouldBeActive := true }
      [Tick.mk 1000 HIGH 1000, Tick.mk 1400 HIGH 1400, Tick.mk 1800 HIGH 1800] ∧
    ledToggleTimes 100
      { initState with gallonEmpty := true, waterEmptyLedShouldBeActive := true }
      [Tick.mk 1000 HIGH 1000, Tick.mk 1400 HIGH 1400, Tick.mk 1800 HIGH 1800]
      = [1000, 1800] ∧
    List.Chain' (fun x y : Nat => x + 500 ≤ y ∧ y < x + 500 + 400)
      (ledToggleTimes 100
        { initState with gallonEmpty := true, waterEmptyLedShouldBeActive := true }
        [Tick.mk 1000 HIGH 1000, Tick.mk 1400 HIGH 1400, Tick.mk 1800 HIGH 1800]) := by
  have hheld : intentHeld 100
      { initState with gallonEmpty := true, waterEmptyLedShouldBeActive := true }
      [Tick.mk 1000 HIGH 1000, Tick.mk 1400 HIGH 1400, Tick.mk 1800 HIGH 1800] :=
    ⟨by decide, by decide, by decide, trivial⟩
  exact ⟨by norm_num [U32], hheld, by decide,
    (blink_period 400 (by norm_num [U32]) 100
      { initState with gallonEmpty := true, waterEmptyLedShouldBeActive := true }
      [Tick.mk 1000 HIGH 1000, Tick.mk 1400 HIGH 1400, Tick.mk 1800 HIGH 1800]
      (by simp) hheld).1⟩

end Dispenser
